import Mathlib

/-!
Shallow embedding of the SIE-ledger K2 note parsers of
`backend/services/koncern_k2_parser.py`, `backend/services/bygg_k2_parser.py`,
`backend/services/intresseftg_k2_parser.py` and of the contextual account
classifier of `backend/account_preclass/preclass.py`.

Modelling conventions:
* Python `float` amounts are modelled as `ℚ`; every amount appearing in the
  sources is a decimal literal, so rational arithmetic is exact.
* A Python run that raises an uncaught exception is modelled as `none` of an
  `Option` result; a completed run is `some`.
* Python strings are `List Char` internally; public entry points take `String`.
* Unicode normalization (NFKD/NFKC) and case folding are embedded by explicit
  character tables covering the repertoire exercised by these parsers (ASCII
  plus the Swedish letters and the mojibake table of the source); on that
  repertoire the tables agree exactly with the Python library functions.
-/

namespace Raket

/-! ## Character utilities -/

/-- The opening-brace character, by code point. -/
def obrace : Char := Char.ofNat 123

/-- The closing-brace character, by code point. -/
def cbrace : Char := Char.ofNat 125

/-- The no-break-space character U+00A0. -/
def nbsp : Char := Char.ofNat 160

/-- Whitespace as matched by Python's `\s` / `str.strip` on the characters
reachable here (space, tab, LF, CR, FF, VT). -/
def isWsB (c : Char) : Bool :=
  c == ' ' || c == '\t' || c == '\n' || c == '\x0d' || c == '\x0b' || c == '\x0c'

/-- Python `str.lower` restricted to ASCII and the accented letters used by the
sources (Å Ä Ö É Ü Ñ Î Ô Ï). -/
def lowerChar (c : Char) : Char :=
  if 'A' ≤ c ∧ c ≤ 'Z' then Char.ofNat (c.toNat + 32)
  else if c = 'Å' then 'å' else if c = 'Ä' then 'ä' else if c = 'Ö' then 'ö'
  else if c = 'É' then 'é' else if c = 'Ü' then 'ü' else if c = 'Ñ' then 'ñ'
  else if c = 'Î' then 'î' else if c = 'Ô' then 'ô' else if c = 'Ï' then 'ï'
  else c

/-- NFKD-decomposition followed by dropping combining marks and lower-casing,
as performed by `_norm_text` / `_norm` / `simplify` in the sources, restricted
to the same repertoire: accented vowels lose their diacritic, ASCII is
lower-cased, everything else is kept. -/
def foldChar (c : Char) : Char :=
  if 'A' ≤ c ∧ c ≤ 'Z' then Char.ofNat (c.toNat + 32)
  else if c = 'å' ∨ c = 'ä' ∨ c = 'Å' ∨ c = 'Ä' then 'a'
  else if c = 'ö' ∨ c = 'Ö' then 'o'
  else if c = 'é' ∨ c = 'É' then 'e'
  else if c = 'ü' ∨ c = 'Ü' then 'u'
  else if c = 'ñ' ∨ c = 'Ñ' then 'n'
  else if c = 'î' ∨ c = 'Î' ∨ c = 'ï' ∨ c = 'Ï' then 'i'
  else if c = 'ô' ∨ c = 'Ô' then 'o'
  else c

/-- Python word character (`\w` / `\b` boundaries): alphanumerics, underscore,
and the accented letters of the repertoire. -/
def isWordChar (c : Char) : Bool :=
  c.isAlphanum || c == '_' ||
  c == 'å' || c == 'ä' || c == 'ö' || c == 'é' || c == 'ü' || c == 'ñ' ||
  c == 'Å' || c == 'Ä' || c == 'Ö' || c == 'É' || c == 'Ü' || c == 'Ñ' ||
  c == 'î' || c == 'ô' || c == 'ï' || c == 'Î' || c == 'Ô' || c == 'Ï'

/-! ## List-of-characters string helpers -/

/-- Boolean prefix test on character lists. -/
def isPre : List Char → List Char → Bool
  | [], _ => true
  | _ :: _, [] => false
  | a :: as, b :: bs => a == b && isPre as bs

/-- Boolean substring test: `p` occurs contiguously in `s` (Python `in`). -/
def isSub (p s : List Char) : Bool :=
  isPre p s ||
  match s with
  | [] => false
  | _ :: rest => isSub p rest

/-- Substring test on `String`s. -/
def strIn (p s : String) : Bool := isSub p.data s.data

/-- Drop leading whitespace. -/
def dropWs (cs : List Char) : List Char := cs.dropWhile isWsB

/-- Python `str.strip()`: drop leading and trailing whitespace. -/
def pyStrip (cs : List Char) : List Char :=
  ((cs.dropWhile isWsB).reverse.dropWhile isWsB).reverse

/-- Worker for `collapseWs`; the flag records whether the previous character
was whitespace. -/
def collapseWsAux : Bool → List Char → List Char
  | _, [] => []
  | prevWs, c :: rest =>
    if isWsB c then
      if prevWs then collapseWsAux true rest
      else ' ' :: collapseWsAux true rest
    else c :: collapseWsAux false rest

/-- Collapse every run of whitespace to a single space (`re.sub(r"\s+", " ")`
after stripping; the strip is applied separately). -/
def collapseWs (cs : List Char) : List Char := collapseWsAux false cs

/-- Longest digit prefix and the remainder. -/
def takeDigits (cs : List Char) : List Char × List Char :=
  (cs.takeWhile Char.isDigit, cs.dropWhile Char.isDigit)

/-- Numeric value of a digit string. -/
def digitsToNat (cs : List Char) : ℕ :=
  cs.foldl (fun acc c => 10 * acc + (c.toNat - 48)) 0

/-- Characters on which Python `str.splitlines` cuts (besides CR-LF). -/
def isLineBreak (c : Char) : Bool :=
  c == '\n' || c == '\x0d' || c == '\x0b' || c == '\x0c' ||
  c == '\x1c' || c == '\x1d' || c == '\x1e' || c == '\x85' ||
  c == Char.ofNat 8232 || c == Char.ofNat 8233

/-- `splitlines` worker: cut at any line break, treating CR-LF as one. -/
def splitLinesGo : List Char → List Char → List (List Char)
  | [], cur => [cur.reverse]
  | '\x0d' :: '\n' :: rest, cur => cur.reverse :: splitLinesGo rest []
  | c :: rest, cur =>
    if isLineBreak c then cur.reverse :: splitLinesGo rest []
    else splitLinesGo rest (c :: cur)

/-- Python `str.splitlines()`: no trailing empty line; the empty string yields
the empty list. -/
def splitLines (cs : List Char) : List (List Char) :=
  match (splitLinesGo cs []).reverse with
  | [] => []
  | last :: front => if last = [] then front.reverse else (last :: front).reverse

/-- The source's global pre-normalization
`sie_text.replace(" ", " ").replace("\t", " ")`. -/
def replaceNbspTab (cs : List Char) : List Char :=
  cs.map (fun c => if c = nbsp ∨ c = '\t' then ' ' else c)

/-! ## Python float parsing

`_f` / `_to_float` strip spaces, turn commas into dots and call `float`.
The argument always comes from the regex class `-?[0-9][0-9\s.,]*`, so after
cleaning the alphabet is an optional minus followed by digits and dots;
`float` accepts exactly the strings with at least one digit and at most one
dot, and its value is the exact decimal. -/

/-- Fractional value of a digit string `d₁…dₖ`, i.e. `0.d₁…dₖ`. -/
def fracVal (cs : List Char) : ℚ :=
  (digitsToNat cs : ℚ) / ((10 : ℚ) ^ cs.length)

/-- Python `float()` on the minus/digits/dots alphabet produced by the balance
amount patterns: `some` of the exact decimal value, `none` when `float` would
raise `ValueError`. -/
def pyFloat (cs : List Char) : Option ℚ :=
  let signed : Bool × List Char :=
    match cs with
    | '-' :: r => (true, r)
    | r => (false, r)
  let body := signed.2
  let ip := (takeDigits body).1
  let rest := (takeDigits body).2
  let val : Option ℚ :=
    match rest with
    | [] => if ip.isEmpty then none else some (digitsToNat ip : ℚ)
    | '.' :: fr =>
      if fr.all Char.isDigit ∧ (¬ ip.isEmpty ∨ ¬ fr.isEmpty) then
        some ((digitsToNat ip : ℚ) + fracVal fr)
      else none
    | _ => none
  val.map (fun v => if signed.1 then -v else v)

/-- `_f` of the koncern parser / `_to_float` of the others:
remove spaces, commas become dots, `float`. -/
def pyFloatClean (cs : List Char) : Option ℚ :=
  pyFloat ((cs.filter (fun c => c ≠ ' ')).map (fun c => if c = ',' then '.' else c))

/-! ## Word-boundary regex search -/

/-- A `\b` boundary holds before the match when the preceding character (if
any) is not a word character. -/
def boundaryOkB : Option Char → Bool
  | none => true
  | some c => !isWordChar c

/-- A `\b` boundary holds after the match when the following character (if
any) is not a word character. -/
def afterOkB : List Char → Bool
  | [] => true
  | c :: _ => !isWordChar c

/-- Search for the word `w` with `\b` boundaries on both sides; `prev` is the
character immediately before the current position. -/
def containsWordAux (w : List Char) : Option Char → List Char → Bool
  | prev, [] => boundaryOkB prev && isPre w [] && afterOkB []
  | prev, c :: rest =>
    (boundaryOkB prev && isPre w (c :: rest) && afterOkB ((c :: rest).drop w.length)) ||
    containsWordAux w (some c) rest

/-- `re.search(r"\b(w)\b", s)` as a Boolean. -/
def containsWord (w : String) (s : List Char) : Bool := containsWordAux w.data none s

/-- The receivable keyword set of `FORDR_PAT`. -/
def fordrWords : List String :=
  ["fordran", "fordringar", "lan", "lån", "ranta", "ränta", "amort", "avbetal"]

/-- `FORDR_PAT.search(nm)` / `is_receivable` of the koncern parser. -/
def is_receivable (nm : String) : Bool := fordrWords.any (fun w => containsWord w nm.data)

/-- Separator class `[.\s]` inside `ACK_IMP_PAT`. -/
def sepDotWs (c : Char) : Bool := c == '.' || isWsB c

/-- One alternative of `ACK_IMP_PAT` matches at the current position
(`ack[.\s]*nedskr\w*`, `ackum\w*`, or `nedskriv\w*`; the trailing `\w*\b` is
always satisfiable). -/
def ackImpAt (s : List Char) : Bool :=
  isPre "nedskriv".data s || isPre "ackum".data s ||
  (isPre "ack".data s && isPre "nedskr".data ((s.drop 3).dropWhile sepDotWs))

/-- Position scan for `ACK_IMP_PAT` with the leading `\b`. -/
def ackImpAux : Option Char → List Char → Bool
  | _, [] => false
  | prev, c :: rest => (boundaryOkB prev && ackImpAt (c :: rest)) || ackImpAux (some c) rest

/-- `ACK_IMP_PAT.search(nm)` / `is_imp_text` of the koncern parser. -/
def is_imp_text (nm : String) : Bool := ackImpAux none nm.data

/-! ## Name normalizers -/

/-- `_norm_text` of `koncern_k2_parser.py`: NFKD fold and strip combining
marks, lower-case, NBSP/tab to space, collapse whitespace, strip. -/
def _norm_text (s : String) : String :=
  ⟨collapseWs (pyStrip
    ((s.data.map foldChar).map (fun c => if c = nbsp ∨ c = '\t' then ' ' else c)))⟩

/-- `_norm` of `intresseftg_k2_parser.py`: NFKD fold, lower-case, keep only
`[a-z0-9 ]` (other characters become separators), collapse, strip. -/
def _norm (s : String) : String :=
  ⟨collapseWs (pyStrip
    (((s.data.map foldChar).map (fun c => if c = nbsp then ' ' else c)).map
      (fun c => if ('a' ≤ c ∧ c ≤ 'z') ∨ c.isDigit ∨ c = ' ' then c else ' ')))⟩

/-- Lower-case a whole string (Python `str.lower`). -/
def lowerStr (s : String) : String := ⟨s.data.map lowerChar⟩

/-! ## Association maps

Python dicts with numeric keys are modelled as association lists: `setQ`
prepends, so the first hit on lookup is the latest write; `addQ` implements
`m.get(k, 0.0) + v` re-insertion.  These maps are only ever read back through
`getQ`/`getS`, never iterated, so this models dict semantics exactly. -/

/-- Rational-valued account map. -/
abbrev AssocQ := List (ℕ × ℚ)

/-- String-valued account map. -/
abbrev AssocS := List (ℕ × String)

/-- `m.get(k, 0.0)`. -/
def getQ (m : AssocQ) (k : ℕ) : ℚ :=
  match m.find? (fun p => p.1 == k) with
  | some p => p.2
  | none => 0

/-- `m[k] = v` (last write wins on lookup). -/
def setQ (m : AssocQ) (k : ℕ) (v : ℚ) : AssocQ := (k, v) :: m

/-- `m[k] = m.get(k, 0.0) + v`. -/
def addQ (m : AssocQ) (k : ℕ) (v : ℚ) : AssocQ := (k, getQ m k + v) :: m

/-- `m.get(k, "")`. -/
def getS (m : AssocS) (k : ℕ) : String :=
  match m.find? (fun p => p.1 == k) with
  | some p => p.2
  | none => ""

/-- `m[k] = v` for string maps. -/
def setS (m : AssocS) (k : ℕ) (v : String) : AssocS := (k, v) :: m

/-! ## Tag-line matchers (koncern parser regexes) -/

/-- Literal prefix under a canonicalizer (`lowerChar` for the `re.I` patterns
of the koncern parser, `id` for the case-sensitive patterns of the others).
Returns the remainder on success. -/
def stripLit (canon : Char → Char) : List Char → List Char → Option (List Char)
  | [], rest => some rest
  | _ :: _, [] => none
  | p :: ps, c :: rest => if canon c = canon p then stripLit canon ps rest else none

/-- `\s+` followed by a non-whitespace continuation: require one whitespace
character and skip the whole run (every following token in the embedded
patterns starts with a non-whitespace character, so this equals the regex). -/
def wsPlus : List Char → Option (List Char)
  | [] => none
  | c :: rest => if isWsB c then some (dropWs rest) else none

/-- A maximal digit run whose length must lie in `[lo, hi]` (as forced by
`\d{lo,hi}` followed by a non-digit requirement). -/
def digitRun (lo hi : ℕ) (cs : List Char) : Option (ℕ × List Char) :=
  let ds := (takeDigits cs).1
  if lo ≤ ds.length ∧ ds.length ≤ hi then some (digitsToNat ds, (takeDigits cs).2)
  else none

/-- `rx_konto = ^#KONTO\s+(\d{3,4})\s+"([^"]*)"` (case-insensitive, not
anchored at the end): account number and raw quoted name. -/
def matchKontoK (cs : List Char) : Option (ℕ × String) := do
  let r1 ← stripLit lowerChar "#KONTO".data cs
  let r2 ← wsPlus r1
  let (acc, r3) ← digitRun 3 4 r2
  let r4 ← wsPlus r3
  match r4 with
  | '"' :: rest =>
    let nm := rest.takeWhile (fun c => c ≠ '"')
    match rest.dropWhile (fun c => c ≠ '"') with
    | '"' :: _ => some (acc, ⟨nm⟩)
    | _ => none
  | _ => none

/-- The three balance tags. -/
inductive BalTag
  | IB
  | UB
  | RES
deriving BEq, DecidableEq

/-- `#(IB|UB|RES)` case-insensitively. -/
def matchBalTag (cs : List Char) : Option (BalTag × List Char) :=
  match stripLit lowerChar "#IB".data cs with
  | some r => some (BalTag.IB, r)
  | none =>
    match stripLit lowerChar "#UB".data cs with
    | some r => some (BalTag.UB, r)
    | none =>
      match stripLit lowerChar "#RES".data cs with
      | some r => some (BalTag.RES, r)
      | none => none

/-- The year-offset token `(-?1|0)` (must be followed by whitespace, checked
by the caller). -/
def matchYrTok : List Char → Option (ℤ × List Char)
  | '-' :: '1' :: rest => some (-1, rest)
  | '1' :: rest => some (1, rest)
  | '0' :: rest => some (0, rest)
  | _ => none

/-- The amount group `(-?[0-9][0-9\s.,]*)` of `rx_bal`, greedy and with no
anchor after it: optional minus, a digit, then the maximal run of
digits/spaces/dots/commas.  Returns the raw captured characters. -/
def balAmountRaw (cs : List Char) : Option (List Char) :=
  let signed : Bool × List Char :=
    match cs with
    | '-' :: r => (true, r)
    | r => (false, r)
  match signed.2 with
  | c :: _ =>
    if c.isDigit then
      let run := signed.2.takeWhile
        (fun c => c.isDigit || c == ' ' || c == '.' || c == ',')
      some ((if signed.1 then ['-'] else []) ++ run)
    else none
  | [] => none

/-- `rx_bal = ^#(IB|UB|RES)\s+(-?1|0)\s+(\d{3,4})\s+(-?[0-9][0-9\s.,]*)` of
the koncern parser. -/
def matchBalK (cs : List Char) : Option (BalTag × ℤ × ℕ × List Char) := do
  let (tag, r1) ← matchBalTag cs
  let r2 ← wsPlus r1
  let (yr, r3) ← matchYrTok r2
  let r4 ← wsPlus r3
  let (acc, r5) ← digitRun 3 4 r4
  let r6 ← wsPlus r5
  let raw ← balAmountRaw r6
  some (tag, yr, acc, raw)

/-- State of the koncern balance scan: `#KONTO` names (normalized at insert)
and the `#IB`/`#UB`/`#RES` maps for year 0. -/
structure KScan where
  konto : AssocS
  ib : AssocQ
  ub : AssocQ
  res : AssocQ

/-- Record one parsed balance value: year-0 `#IB`/`#UB` overwrite their
entry, `#RES` accumulates (`res.get(acc, 0.0) + val`); other years are
skipped. -/
def koncernApplyBal (st : KScan) (r : BalTag × ℤ × ℕ × ℚ) : KScan :=
  if r.2.1 ≠ 0 then st
  else
    match r.1 with
    | BalTag.IB => { st with ib := setQ st.ib r.2.2.1 r.2.2.2 }
    | BalTag.UB => { st with ub := setQ st.ub r.2.2.1 r.2.2.2 }
    | BalTag.RES => { st with res := addQ st.res r.2.2.1 r.2.2.2 }

/-- One line of the koncern balance scan.  `none` models the uncaught
`ValueError` that `_f` raises when the captured amount is not a valid float. -/
def koncernScanLine (st : KScan) (line : List Char) : Option KScan :=
  match matchKontoK line with
  | some (a, nm) => some { st with konto := setS st.konto a (_norm_text nm) }
  | none =>
    match matchBalK line with
    | none => some st
    | some (tag, yr, acc, raw) =>
      match pyFloatClean raw with
      | none => none
      | some v => some (koncernApplyBal st (tag, yr, acc, v))

/-- The full `#KONTO`/`#IB`/`#UB`/`#RES` scan of
`parse_koncern_k2_from_sie_text` (its first loop over `lines`). -/
def koncernScan (lines : List (List Char)) : Option KScan :=
  lines.foldlM koncernScanLine ⟨[], [], [], []⟩

/-! ## Voucher header and transaction matchers

`ver_header_re = ^#VER\s+(\S+)\s+(\d+)\s+(\d{8})(?:\s+(…text…))?$` (the
koncern variant ends in `$`, the bygg/intresseftg variants in `\s*$`; all
agree on the part up to the date).  `trans_re` is shared by all three parsers:
`^#(?:BTRANS|RTRANS|TRANS)\s+(\d{3,4})(?:\s+\{.*?\})?\s+(amount)`
`(?:\s+\d{8})?(?:\s+".*?")?\s*$` with
`amount = -?(?:\d{1,3}(?:[ ]?\d{3})*|\d+)(?:[.,]\d+)?`.  The matchers below
reproduce the backtracking order of the regex engine (greedy prefers longer,
lazy prefers shorter, alternatives in source order) by trying candidate
splits in that order. -/

/-- Shared `#VER` prefix: series, sequence number, and the remainder after
the 8-digit date.  The remainder is empty or starts with whitespace, as the
anchored tails of all three variants force. -/
def matchVerCore (canon : Char → Char) (cs : List Char) :
    Option (String × ℕ × List Char) := do
  let r1 ← stripLit canon "#VER".data cs
  let r2 ← wsPlus r1
  let series := r2.takeWhile (fun c => !isWsB c)
  if series.isEmpty then none
  else do
    let r3 ← wsPlus (r2.drop series.length)
    let ds := (takeDigits r3).1
    if ds.isEmpty then none
    else do
      let r4 ← wsPlus ((takeDigits r3).2)
      let dt := (takeDigits r4).1
      if dt.length = 8 then
        let rest := (takeDigits r4).2
        match rest with
        | [] => some (⟨series⟩, digitsToNat ds, [])
        | c :: _ => if isWsB c then some (⟨series⟩, digitsToNat ds, rest) else none
      else none

/-- Koncern header text: the quoted capture `"([^"]*)"` if the tail is exactly
a quoted string, otherwise the bare capture `(.+)$`; empty when absent. -/
def verTextRawK (rest : List Char) : String :=
  let body := dropWs rest
  match body with
  | [] => ""
  | '"' :: t =>
    let inner := t.takeWhile (fun c => c ≠ '"')
    match t.dropWhile (fun c => c ≠ '"') with
    | ['"'] => ⟨inner⟩
    | _ => ⟨body⟩
  | _ => ⟨body⟩

/-- Intresseftg header text: only the quoted capture `"([^"]*)"` (which may be
followed by trailing whitespace) is kept; bare header text yields `""`. -/
def verTextRawI (rest : List Char) : String :=
  let body := dropWs rest
  match body with
  | '"' :: t =>
    let inner := t.takeWhile (fun c => c ≠ '"')
    match t.dropWhile (fun c => c ≠ '"') with
    | '"' :: tail => if tail.all isWsB then ⟨inner⟩ else ""
    | _ => ""
  | _ => ""

/-- `#(?:BTRANS|RTRANS|TRANS)` case-insensitively, alternatives in source
order. -/
def transTagStrip (canon : Char → Char) (cs : List Char) : Option (List Char) :=
  match stripLit canon "#BTRANS".data cs with
  | some r => some r
  | none =>
    match stripLit canon "#RTRANS".data cs with
    | some r => some r
    | none => stripLit canon "#TRANS".data cs

/-- Remainders after each closing brace of the lazy `\{.*?\}`, nearest close
first. -/
def objCloseCands : List Char → List (List Char)
  | [] => []
  | c :: rest =>
    if c = cbrace then rest :: objCloseCands rest else objCloseCands rest

/-- Candidates for the optional object marker `(?:\s+\{.*?\})?`: present with
each possible close (lazy order), then absent. -/
def objCands (cs : List Char) : List (List Char) :=
  (match cs with
   | c :: rest =>
     if isWsB c then
       match dropWs rest with
       | d :: t => if d = obrace then objCloseCands t else []
       | [] => []
     else []
   | [] => []) ++ [cs]

/-- One iteration of the thousands grouping `(?:[ ]?\d{3})`. -/
def grpStep : List Char → Option (List Char × List Char)
  | ' ' :: d1 :: d2 :: d3 :: r =>
    if d1.isDigit && d2.isDigit && d3.isDigit then some ([d1, d2, d3], r) else none
  | d1 :: d2 :: d3 :: r =>
    if d1.isDigit && d2.isDigit && d3.isDigit then some ([d1, d2, d3], r) else none
  | _ => none

/-- Candidates for the greedy star over the grouping, most iterations first;
the accumulator collects the digits without separators. -/
def starGrp : ℕ → List Char → List Char → List (List Char × List Char)
  | 0, acc, rest => [(acc, rest)]
  | Nat.succ f, acc, rest =>
    match grpStep rest with
    | some (ds, r2) => starGrp f (acc ++ ds) r2 ++ [(acc, rest)]
    | none => [(acc, rest)]

/-- Candidates for `\d{1,3}`, greedy (3, then 2, then 1 digits). -/
def take1to3Cands (cs : List Char) : List (List Char × List Char) :=
  let run := (takeDigits cs).1
  let cand : ℕ → List (List Char × List Char) := fun k =>
    if k ≤ run.length then [(cs.take k, cs.drop k)] else []
  cand 3 ++ cand 2 ++ cand 1

/-- Candidates for a plain greedy `\d+`, longest first. -/
def plainCands (cs : List Char) : List (List Char × List Char) :=
  let n := (takeDigits cs).1.length
  (List.range n).map (fun i => (cs.take (n - i), cs.drop (n - i)))

/-- All integer-part candidates of the amount alternation
`(\d{1,3}(?:[ ]?\d{3})*|\d+)`, in backtracking order; the digit lists carry no
separators. -/
def intAllCands (cs : List Char) : List (List Char × List Char) :=
  ((take1to3Cands cs).flatMap (fun p => starGrp p.2.length p.1 p.2)) ++ plainCands cs

/-- Candidates for the optional fraction `(?:[.,]\d+)?` (greedy), paired as
((integer digits, fraction digits), remainder). -/
def fracCands (ds : List Char) (rest : List Char) :
    List ((List Char × List Char) × List Char) :=
  (match rest with
   | c :: t =>
     if c = '.' ∨ c = ',' then
       let n := (takeDigits t).1.length
       (List.range n).map (fun i => ((ds, t.take (n - i)), t.drop (n - i)))
     else []
   | [] => []) ++ [((ds, []), rest)]

/-- Exact rational value of a matched amount; `_f`/`_to_float` on the raw
captured group produces exactly this value, since the group's grammar
guarantees a valid float literal after space removal and comma conversion. -/
def amtVal (neg : Bool) (ip fr : List Char) : ℚ :=
  let v := (digitsToNat ip : ℚ) + fracVal fr
  if neg then -v else v

/-- Candidates for the optional trailing date `(?:\s+\d{8})?` (present first). -/
def dateCands (cs : List Char) : List (List Char) :=
  (match cs with
   | c :: rest =>
     if isWsB c then
       let b := dropWs rest
       if 8 ≤ (takeDigits b).1.length then [b.drop 8] else []
     else []
   | [] => []) ++ [cs]

/-- Remainders after each closing quote, nearest first (lazy `".*?"`). -/
def closeQuoteCands : List Char → List (List Char)
  | [] => []
  | c :: rest =>
    if c = '"' then rest :: closeQuoteCands rest else closeQuoteCands rest

/-- Candidates for the optional trailing quoted text `(?:\s+".*?")?`. -/
def quoteCands (cs : List Char) : List (List Char) :=
  (match cs with
   | c :: rest =>
     if isWsB c then
       match dropWs rest with
       | q :: t => if q = '"' then closeQuoteCands t else []
       | [] => []
     else []
   | [] => []) ++ [cs]

/-- The anchored tail `(?:\s+\d{8})?(?:\s+".*?")?\s*$` of `trans_re`. -/
def tailMatch (cs : List Char) : Bool :=
  (dateCands cs).any (fun r1 => (quoteCands r1).any (fun r2 => r2.all isWsB))

/-- `trans_re`: account number and exact amount of a posting line, or `none`
when the line does not match. -/
def matchTrans (canon : Char → Char) (cs : List Char) : Option (ℕ × ℚ) := do
  let r1 ← transTagStrip canon cs
  let r2 ← wsPlus r1
  let (acc, r3) ← digitRun 3 4 r2
  (objCands r3).findSome? (fun r4 =>
    match wsPlus r4 with
    | none => none
    | some r5 =>
      let signed : Bool × List Char :=
        match r5 with
        | '-' :: t => (true, t)
        | t => (false, t)
      ((intAllCands signed.2).flatMap (fun p => fracCands p.1 p.2)).findSome?
        (fun q =>
          if tailMatch q.2 then some (acc, amtVal signed.1 q.1.1 q.1.2)
          else none))

/-! ## Voucher collection

`trans_by_ver` is a `defaultdict(list)` keyed by `(series, number)`; iteration
order is first-touch order, which `pushTx` preserves.  `text_by_ver` is only
read back pointwise. -/

/-- Voucher key: series identifier and sequence number. -/
abbrev VKey := String × ℕ

/-- Append a posting to its voucher, preserving first-touch key order. -/
def pushTx : List (VKey × List (ℕ × ℚ)) → VKey → ℕ × ℚ → List (VKey × List (ℕ × ℚ))
  | [], k, t => [(k, [t])]
  | (k0, ts) :: rest, k, t =>
    if k0 = k then (k0, ts ++ [t]) :: rest else (k0, ts) :: pushTx rest k t

/-- `text_by_ver.get(key, "")`. -/
def getText (m : List (VKey × String)) (k : VKey) : String :=
  match m.find? (fun p => p.1 = k) with
  | some p => p.2
  | none => ""

/-- State of the voucher-collection loop. -/
structure VState where
  cur : Option VKey
  inBlock : Bool
  trans : List (VKey × List (ℕ × ℚ))
  text : List (VKey × String)

/-- One line of the voucher-collection loop; `textOf` is the per-parser
header-text extraction (normalized koncern text or lower-cased quoted
intresseftg text). -/
def voucherLine (canon : Char → Char) (textOf : List Char → String) (st : VState)
    (line : List Char) : VState :=
  match matchVerCore canon line with
  | some (ser, seq, rest) =>
    let key : VKey := (ser, seq)
    { st with cur := some key, text := (key, textOf rest) :: st.text }
  | none =>
    if line = [obrace] then { st with inBlock := true }
    else if line = [cbrace] then { st with inBlock := false, cur := none }
    else
      match st.cur with
      | some key =>
        if st.inBlock then
          match matchTrans canon line with
          | some tx => { st with trans := pushTx st.trans key tx }
          | none => st
        else st
      | none => st

/-- Collect all vouchers from the (stripped) lines. -/
def collectVouchers (canon : Char → Char) (textOf : List Char → String)
    (lines : List (List Char)) : VState :=
  lines.foldl (voucherLine canon textOf) ⟨none, false, [], []⟩

/-! ## Koncern parser: account classification -/

/-- `is_aat` of the koncern parser (substring keywords over the normalized
account name). -/
def is_aat (nm : String) : Bool :=
  ["aktieagartillskott", "aktieägartillskott", "villkorat", "ovillkorat",
   "tillskott", "aat"].any (fun w => strIn w nm)

/-- `is_share_koncern` of the koncern parser: a koncern word together with a
share word, or any known company-name token occurring in the name. -/
def is_share_koncern (tokens : List String) (nm : String) : Bool :=
  let base :=
    (strIn "koncern" nm || strIn "koncernföretag" nm || strIn "koncernforetag" nm ||
     strIn "dotter" nm) &&
    (strIn "andel" nm || strIn "andelar" nm || strIn "aktie" nm || strIn "aktier" nm)
  let hasName := tokens.any (fun tok => tok ≠ "" && strIn tok nm)
  base || hasName

/-- Suffix test on strings. -/
def endsWith (suf s : String) : Bool := isPre suf.data.reverse s.data.reverse

/-- `_name_variants`: the normalized name with punctuation removed, plus
legal-suffix-stripped variants. -/
def _name_variants (name : String) : List String :=
  let n0 := _norm_text name
  let n1 : List Char := n0.data.map (fun c =>
    if ('a' ≤ c ∧ c ≤ 'z') ∨ c.isDigit ∨ c = ' ' ∨ c = 'å' ∨ c = 'ä' ∨ c = 'ö'
    then c else ' ')
  let n : String := ⟨collapseWs (pyStrip n1)⟩
  n :: ([" ab", " kb", " hb", " kommanditbolag", " aktiebolag"].filterMap
    (fun suf =>
      if endsWith suf n then
        some ⟨pyStrip (n.data.take (n.data.length - suf.data.length))⟩
      else none))

/-- The `name_tokens` set built from the optional scraper company names
(non-empty variants only). -/
def nameTokens (scraperCompanies : List String) : List String :=
  (scraperCompanies.flatMap _name_variants).filter (fun v => v ≠ "")

/-- The `andel_set` heuristic (with no preclass seeding, i.e.
`preclass_result=None`): 1310–1317 names that are neither impairment nor
receivable nor contribution; 1320–1329 rescue; 1330–1339 name-hint rescue. -/
def koncernAndelSet (konto : ℕ → String) (tokens : List String) : List ℕ :=
  ((List.range' 1310 9).filter (fun a =>
    ¬ (a = 1318 ∨ is_imp_text (konto a) = true) ∧
    is_receivable (konto a) = false ∧ is_aat (konto a) = false)) ++
  ((List.range' 1320 10).filter (fun a =>
    konto a ≠ "" ∧ is_receivable (konto a) = false ∧
    is_aat (konto a) = false ∧ is_share_koncern tokens (konto a) = true)) ++
  ((List.range' 1330 10).filter (fun a =>
    konto a ≠ "" ∧ is_receivable (konto a) = false ∧
    (tokens.any (fun tok => strIn tok (konto a))) = true))

/-- The `aat_set` heuristic (no preclass seeding). -/
def koncernAatSet (konto : ℕ → String) : List ℕ :=
  ((List.range' 1310 9).filter (fun a =>
    ¬ (a = 1318 ∨ is_imp_text (konto a) = true) ∧
    is_receivable (konto a) = false ∧ is_aat (konto a) = true)) ++
  ((List.range' 1320 10).filter (fun a =>
    konto a ≠ "" ∧ is_receivable (konto a) = false ∧ is_aat (konto a) = true))

/-- The `imp_set` heuristic (no preclass seeding): 1318 always, and 1310–1317
with an accumulated-impairment name. -/
def koncernImpSet (konto : ℕ → String) : List ℕ :=
  (List.range' 1310 9).filter (fun a => a = 1318 ∨ is_imp_text (konto a) = true)

/-! ## Koncern parser: per-voucher movement classification -/

/-- Total debit (`amt > 0`) on accounts satisfying `p`. -/
def sumD (p : ℕ → Bool) (txs : List (ℕ × ℚ)) : ℚ :=
  txs.foldr (fun t acc => if p t.1 ∧ 0 < t.2 then t.2 + acc else acc) 0

/-- Total credit magnitude (`-amt` over `amt < 0`) on accounts satisfying
`p`. -/
def sumK (p : ℕ → Bool) (txs : List (ℕ × ℚ)) : ℚ :=
  txs.foldr (fun t acc => if p t.1 ∧ t.2 < 0 then -t.2 + acc else acc) 0

/-- The guarded minimum of the result-share consumption:
`min(x, y) if y > 0 and x > 0 else 0.0`. -/
def resPlusOf (x y : ℚ) : ℚ := if 0 < y ∧ 0 < x then min x y else 0

/-- The result-share accounts `RES_SHARE_SET = {8030, 8240}`. -/
def resShareK (a : ℕ) : Bool := a == 8030 || a == 8240

/-- The sale P&L accounts `SALE_PNL = range(8220, 8230)`. -/
def salePnl (a : ℕ) : Bool := 8220 ≤ a && a ≤ 8229

/-- `res_plus` of the koncern voucher loop:
`min(A_D_total, RES_K) if RES_K > 0 and A_D_total > 0 else 0.0`. -/
def koncernResPlus (andel aat : ℕ → Bool) (txs : List (ℕ × ℚ)) : ℚ :=
  resPlusOf (sumD andel txs + sumD aat txs) (sumK resShareK txs)

/-- `res_minus` of the koncern voucher loop:
`min(A_K_total, RES_D) if RES_D > 0 and A_K_total > 0 else 0.0`. -/
def koncernResMinus (andel aat : ℕ → Bool) (txs : List (ℕ × ℚ)) : ℚ :=
  resPlusOf (sumK andel txs + sumK aat txs) (sumD resShareK txs)

/-- `rem_andel_K`: the share-side credit remaining after result-share
consumption. -/
def koncernRemAndelK (andel aat : ℕ → Bool) (txs : List (ℕ × ℚ)) : ℚ :=
  max 0 (sumK andel txs - min (sumK andel txs) (koncernResMinus andel aat txs))

/-- `is_payout_prior_share` of the koncern sale branch: no result-share or
impairment activity, only bank accounts besides the share/contribution/
impairment/result accounts, a bank debit matching the remaining share credit
within 0.5, and settlement wording (or at least no sale wording) in the
voucher header text. -/
def is_payout_prior_share (andel aat imp : ℕ → Bool) (text : String)
    (txs : List (ℕ × ℚ)) : Prop :=
  let rem_andel_K := koncernRemAndelK andel aat txs
  let isOther : ℕ → Bool := fun a => ¬ (andel a || aat a || imp a || resShareK a)
  let only_banks :=
    txs.any (fun t => isOther t.1) ∧
    txs.all (fun t => isOther t.1 → (1900 ≤ t.1 ∧ t.1 ≤ 1999))
  let bank_debet := sumD (fun a => 1900 ≤ a && a ≤ 1999) txs
  let kw_sale := ["försälj", "avyttr", "sale"].any (fun k => strIn k text)
  let kw_settlement := ["utbet", "utbetal", "kap andel", "resultatandel", "kb",
    "hb", "kommandit", "handelsbolag"].any (fun k => strIn k text)
  sumD resShareK txs = 0 ∧ sumK resShareK txs = 0 ∧ sumD imp txs = 0 ∧
  sumK imp txs = 0 ∧ only_banks ∧ |bank_debet - rem_andel_K| < 1 / 2 ∧
  (kw_settlement = true ∨ kw_sale = false)

instance (andel aat imp : ℕ → Bool) (text : String) (txs : List (ℕ × ℚ)) :
    Decidable ( is_payout_prior_share andel aat imp text txs) := by
  unfold is_payout_prior_share
  infer_instance

/-- One voucher's additive contribution to the koncern accumulators. -/
structure KDelta where
  inkop : ℚ
  fusion : ℚ
  aat_lamnad : ℚ
  aat_aterbetald : ℚ
  fsg : ℚ
  resultatandel : ℚ
  omklass : ℚ
  arets_nedskr : ℚ
  aterfor_nedskr : ℚ
  aterfor_nedskr_fsg : ℚ
  aterfor_nedskr_fusion : ℚ
  omklass_nedskr : ℚ

/-- The zero contribution. -/
def KDelta.zero : KDelta := ⟨0, 0, 0, 0, 0, 0, 0, 0, 0, 0, 0, 0⟩

/-- Pointwise sum of contributions. -/
def KDelta.add (x y : KDelta) : KDelta :=
  ⟨x.inkop + y.inkop, x.fusion + y.fusion, x.aat_lamnad + y.aat_lamnad,
   x.aat_aterbetald + y.aat_aterbetald, x.fsg + y.fsg,
   x.resultatandel + y.resultatandel, x.omklass + y.omklass,
   x.arets_nedskr + y.arets_nedskr, x.aterfor_nedskr + y.aterfor_nedskr,
   x.aterfor_nedskr_fsg + y.aterfor_nedskr_fsg,
   x.aterfor_nedskr_fusion + y.aterfor_nedskr_fusion,
   x.omklass_nedskr + y.omklass_nedskr⟩

/-- The loop body of `parse_koncern_k2_from_sie_text` over one voucher
(`for key, txs in trans_by_ver.items()`), with every `+=`/`-=` collected as an
additive delta.  `andel`/`aat`/`imp` are the classified account sets, `text`
the normalized header text. -/
def koncernDelta (andel aat imp : ℕ → Bool) (text : String)
    (txs : List (ℕ × ℚ)) : KDelta :=
  let AND_D := sumD andel txs
  let AND_K := sumK andel txs
  let AAT_D := sumD aat txs
  let AAT_K := sumK aat txs
  let AD := AND_D + AAT_D
  let AK := AND_K + AAT_K
  let IMP_D := sumD imp txs
  let IMP_K := sumK imp txs
  let RES_K := sumK resShareK txs
  let RES_D := sumD resShareK txs
  -- 1) result-share consumption (priority share → AAT)
  let res_plus := koncernResPlus andel aat txs
  let res_minus := koncernResMinus andel aat txs
  let consume_andel_D := min AND_D res_plus
  let consume_aat_D := min AAT_D (res_plus - consume_andel_D)
  let consume_andel_K := min AND_K res_minus
  let consume_aat_K := min AAT_K (res_minus - consume_andel_K)
  -- 2) purchases / fusion; AAT given
  let rem_andel_D := max 0 (AND_D - consume_andel_D)
  let rem_aat_D := max 0 (AAT_D - consume_aat_D)
  let dInkop := if 0 < rem_andel_D ∧ ¬ (strIn "fusion" text = true) then rem_andel_D else 0
  let dFusion := if 0 < rem_andel_D ∧ strIn "fusion" text = true then rem_andel_D else 0
  let dAatLamnad := if 0 < rem_aat_D then rem_aat_D else 0
  -- 3) sales vs. payout; AAT repaid
  let rem_andel_K := koncernRemAndelK andel aat txs
  let rem_aat_K := max 0 (AAT_K - consume_aat_K)
  let has_sale_pnl := txs.any (fun t => salePnl t.1)
  let kw_sale := ["försälj", "avyttr", "sale"].any (fun k => strIn k text)
  let sale_fires := 0 < rem_andel_K ∧ has_sale_pnl = true
  let is_payout := is_payout_prior_share andel aat imp text txs
  let dFsg :=
    if 0 < rem_andel_K then
      if has_sale_pnl then rem_andel_K
      else if is_payout then 0
      else if kw_sale then rem_andel_K
      else 0
    else 0
  let dResPayout :=
    if 0 < rem_andel_K then
      if has_sale_pnl then 0
      else if is_payout then -rem_andel_K
      else if kw_sale then 0
      else -rem_andel_K
    else 0
  let dAterforFsg := if sale_fires ∧ 0 < IMP_D then IMP_D else 0
  -- IMP_D is zeroed inside the sale branch
  let impD2 := if sale_fires ∧ 0 < IMP_D then 0 else IMP_D
  let dAatAterbetald := if 0 < rem_aat_K then rem_aat_K else 0
  -- 4) impairment and reversals (outside sale)
  let dAterforFusion := if 0 < impD2 ∧ strIn "fusion" text = true then impD2 else 0
  let dAterfor := if 0 < impD2 ∧ ¬ (strIn "fusion" text = true) then impD2 else 0
  let dArets := if 0 < IMP_K then IMP_K else 0
  -- 5) reclassification when no signals (uses the possibly-zeroed IMP_D)
  let asset_signals := 0 < RES_K ∨ 0 < RES_D ∨ 0 < impD2 ∨ 0 < IMP_K
  let dOmklass := if 0 < AD ∧ 0 < AK ∧ ¬ asset_signals then AD - AK else 0
  let dOmklassNedskr :=
    if 0 < IMP_D ∧ 0 < IMP_K ∧ ¬ (0 < AD ∨ 0 < AK ∨ 0 < RES_K ∨ 0 < RES_D)
    then IMP_D - IMP_K else 0
  ⟨dInkop, dFusion, dAatLamnad, dAatAterbetald, dFsg,
   res_plus - res_minus + dResPayout, dOmklass,
   dArets, dAterfor, dAterforFsg, dAterforFusion, dOmklassNedskr⟩

/-! ## Koncern parser: assembly -/

/-- The returned dictionary of `parse_koncern_k2_from_sie_text`. -/
structure KoncernResult where
  koncern_ib : ℚ
  inkop_koncern : ℚ
  fusion_koncern : ℚ
  aktieagartillskott_lamnad_koncern : ℚ
  aktieagartillskott_aterbetald_koncern : ℚ
  fsg_koncern : ℚ
  resultatandel_koncern : ℚ
  omklass_koncern : ℚ
  koncern_ub : ℚ
  ack_nedskr_koncern_ib : ℚ
  arets_nedskr_koncern : ℚ
  aterfor_nedskr_koncern : ℚ
  aterfor_nedskr_fsg_koncern : ℚ
  aterfor_nedskr_fusion_koncern : ℚ
  omklass_nedskr_koncern : ℚ
  ack_nedskr_koncern_ub : ℚ
  red_varde_koncern : ℚ
deriving DecidableEq

/-- Everything after the balance scan of `parse_koncern_k2_from_sie_text`:
classification, balance sums, voucher replay, and the UB formulas (which
overwrite the `#UB`-derived sums). -/
def koncernBuild (lines : List (List Char)) (st : KScan)
    (scraperCompanies : List String) : KoncernResult :=
  let konto : ℕ → String := fun a => getS st.konto a
  let tokens := nameTokens scraperCompanies
  let andelL := koncernAndelSet konto tokens
  let aatL := koncernAatSet konto
  let impL := koncernImpSet konto
  let andel : ℕ → Bool := fun a => andelL.contains a
  let aat : ℕ → Bool := fun a => aatL.contains a
  let imp : ℕ → Bool := fun a => impL.contains a
  let assetAll := andelL ++ aatL
  let koncern_ib := (assetAll.map (fun a => getQ st.ib a)).sum
  let ack_ib := (impL.map (fun a => getQ st.ib a)).sum
  let res0 := -(getQ st.res 8030 + getQ st.res 8240)
  let vs := collectVouchers lowerChar (fun rest => _norm_text (verTextRawK rest)) lines
  let tot := vs.trans.foldl
    (fun acc kv => acc.add (koncernDelta andel aat imp (getText vs.text kv.1) kv.2))
    KDelta.zero
  let resultatandel := res0 + tot.resultatandel
  let koncern_ub := koncern_ib + tot.inkop + tot.fusion + tot.aat_lamnad -
    tot.fsg - tot.aat_aterbetald + resultatandel + tot.omklass
  let ack_ub := ack_ib - tot.arets_nedskr + tot.aterfor_nedskr +
    tot.aterfor_nedskr_fsg + tot.aterfor_nedskr_fusion + tot.omklass_nedskr
  { koncern_ib := koncern_ib
    inkop_koncern := tot.inkop
    fusion_koncern := tot.fusion
    aktieagartillskott_lamnad_koncern := tot.aat_lamnad
    aktieagartillskott_aterbetald_koncern := tot.aat_aterbetald
    fsg_koncern := tot.fsg
    resultatandel_koncern := resultatandel
    omklass_koncern := tot.omklass
    koncern_ub := koncern_ub
    ack_nedskr_koncern_ib := ack_ib
    arets_nedskr_koncern := tot.arets_nedskr
    aterfor_nedskr_koncern := tot.aterfor_nedskr
    aterfor_nedskr_fsg_koncern := tot.aterfor_nedskr_fsg
    aterfor_nedskr_fusion_koncern := tot.aterfor_nedskr_fusion
    omklass_nedskr_koncern := tot.omklass_nedskr
    ack_nedskr_koncern_ub := ack_ub
    red_varde_koncern := koncern_ub + ack_ub }

/-- The stripped lines of the pre-normalized input text. -/
def sieLines (sie_text : String) : List (List Char) :=
  (splitLines (replaceNbspTab sie_text.data)).map pyStrip

/-- `parse_koncern_k2_from_sie_text` (with `preclass_result=None`; the
optional scraper company names are the second argument).  `none` models an
uncaught exception from `_f` on a malformed balance amount. -/
def parse_koncern_k2_from_sie_text (sie_text : String)
    (scraperCompanies : List String) : Option KoncernResult :=
  let lines := sieLines sie_text
  (koncernScan lines).map (fun st => koncernBuild lines st scraperCompanies)

/-- The `#UB`-derived closing balance of the koncern share/contribution
accounts (the value of `koncern_ub` at its first assignment, before the UB
formula overwrites it). -/
def koncernParsedUb (sie_text : String) (scraperCompanies : List String) :
    Option ℚ :=
  let lines := sieLines sie_text
  (koncernScan lines).map (fun st =>
    let konto : ℕ → String := fun a => getS st.konto a
    let tokens := nameTokens scraperCompanies
    ((koncernAndelSet konto tokens ++ koncernAatSet konto).map
      (fun a => getQ st.ub a)).sum)

/-! ## Bygg parser (`bygg_k2_parser.py`)

All its regexes are compiled without `re.I`, hence matched with `id` as the
canonicalizer. -/

/-- `sru_re = ^#SRU\s+(\d+)\s+(\d+)\s*$` (case-sensitive, anchored). -/
def matchSruB (cs : List Char) : Option (ℕ × ℕ) := do
  let r1 ← stripLit id "#SRU".data cs
  let r2 ← wsPlus r1
  let ds1 := (takeDigits r2).1
  if ds1.isEmpty then none
  else do
    let r3 ← wsPlus ((takeDigits r2).2)
    let ds2 := (takeDigits r3).1
    if ds2.isEmpty then none
    else if ((takeDigits r3).2).all isWsB then some (digitsToNat ds1, digitsToNat ds2)
    else none

/-- Insert-or-overwrite preserving first-insertion order (Python dict
assignment; iteration order of `.items()` is first-touch order). -/
def setKeepN : List (ℕ × ℕ) → ℕ → ℕ → List (ℕ × ℕ)
  | [], k, v => [(k, v)]
  | (k0, v0) :: rest, k, v =>
    if k0 = k then (k0, v) :: rest else (k0, v0) :: setKeepN rest k v

/-- The `#SRU` scan of the bygg parser (`sru_codes`). -/
def sruScanB (lines : List (List Char)) : List (ℕ × ℕ) :=
  lines.foldl (fun m line =>
    match matchSruB line with
    | some (a, sru) => setKeepN m a sru
    | none => m) []

/-- `BASE_BUILDING_ASSET_RANGES`. -/
def baseByggRanges : List (ℕ × ℕ) :=
  [(1110, 1117), (1130, 1139), (1140, 1149), (1150, 1157), (1180, 1189)]

/-- `BASE_ACC_DEP_BYGG = {1119, 1159}`. -/
def baseAccDep : List ℕ := [1119, 1159]

/-- `BASE_ACC_IMP_BYGG = {1158}`. -/
def baseAccImp : List ℕ := [1158]

/-- Membership of an account in a list of inclusive ranges. -/
def inRanges (rs : List (ℕ × ℕ)) (a : ℕ) : Bool :=
  rs.any (fun r => r.1 ≤ a && a ≤ r.2)

/-- `belongs_to_bygg`: interval logic, possibly refined by the account's SRU
code (7214 pulls accounts in, a different code pushes range accounts out). -/
def belongs_to_bygg (sru : List (ℕ × ℕ)) (acct : ℕ) : Bool :=
  let in_rng := inRanges baseByggRanges acct || baseAccDep.contains acct ||
    baseAccImp.contains acct
  if sru.isEmpty then in_rng
  else
    match sru.find? (fun p => p.1 = acct) with
    | none => in_rng
    | some p =>
      if in_rng ∧ p.2 = 7214 then true
      else if in_rng ∧ p.2 ≠ 7214 then false
      else p.2 = 7214

/-- The final bygg account sets (asset ranges, accumulated depreciation,
accumulated impairment). -/
structure ByggSets where
  ranges : List (ℕ × ℕ)
  dep : List ℕ
  imp : List ℕ

/-- Build the bygg account sets: SRU-7214 accounts outside the base sets are
routed by their last digit (8 → impairment, 9 or 4 → depreciation, otherwise a
singleton asset range). -/
def byggSets (sru : List (ℕ × ℕ)) : ByggSets :=
  sru.foldl (fun st p =>
    if belongs_to_bygg sru p.1 ∧ inRanges baseByggRanges p.1 = false ∧
       baseAccDep.contains p.1 = false ∧ baseAccImp.contains p.1 = false then
      let d := p.1 % 10
      if d = 8 then { st with imp := st.imp ++ [p.1] }
      else if d = 9 then { st with dep := st.dep ++ [p.1] }
      else if d = 4 then { st with dep := st.dep ++ [p.1] }
      else { st with ranges := st.ranges ++ [(p.1, p.1)] }
    else st) ⟨baseByggRanges, baseAccDep, baseAccImp⟩

/-- The amount group of `get_balance`'s
`^#(?:K)\s+0\s+(\d+)\s+(-?[0-9][0-9\s.,]*)(?:\s+.*)?$`: greedy, but the
anchored tail forces backtracking to the last space inside the run when
non-matching text follows directly. -/
def balAmountAnchored (cs : List Char) : Option (List Char) :=
  let signed : Bool × List Char :=
    match cs with
    | '-' :: r => (true, r)
    | r => (false, r)
  match signed.2 with
  | c :: _ =>
    if c.isDigit then
      let run := signed.2.takeWhile
        (fun c => c.isDigit || c == ' ' || c == '.' || c == ',')
      let rest := signed.2.drop run.length
      let pre : List Char := if signed.1 then ['-'] else []
      if rest.isEmpty then some (pre ++ run)
      else
        match (List.range run.length).reverse.findSome? (fun m =>
          if 1 ≤ m ∧ run.get? m = some ' ' then some m else none) with
        | some m => some (pre ++ run.take m)
        | none => none
    else none
  | [] => none

/-- One balance line of `get_balance` (kind `IB` or `UB`, year `0`,
case-sensitive): account and raw amount. -/
def matchBalLineB (kind : List Char) (cs : List Char) : Option (ℕ × List Char) := do
  let r1 ← stripLit id ('#' :: kind) cs
  let r2 ← wsPlus r1
  match r2 with
  | '0' :: r3 => do
    let r4 ← wsPlus r3
    let ds := (takeDigits r4).1
    if ds.isEmpty then none
    else do
      let r5 ← wsPlus ((takeDigits r4).2)
      let raw ← balAmountAnchored r5
      some (digitsToNat ds, raw)
  | _ => none

/-- `get_balance`: sum the matching year-0 balances over the accounts
satisfying `memb` (a set or a range list in the source).  `none` models the
uncaught `ValueError` of `_to_float`. -/
def get_balance (lines : List (List Char)) (kind : String) (memb : ℕ → Bool) :
    Option ℚ :=
  lines.foldlM (fun total line =>
    match matchBalLineB kind.data line with
    | none => some total
    | some (acct, raw) =>
      match pyFloatClean raw with
      | none => none
      | some v => some (if memb acct then total + v else total)) 0

/-- One voucher's additive contribution to the bygg accumulators. -/
structure BDelta where
  inkop : ℚ
  fsg : ℚ
  omklass : ℚ
  avskr : ℚ
  aterfor_avskr_fsg : ℚ
  uppskr : ℚ
  avskr_uppskr : ℚ
  aterfor_uppskr_fsg : ℚ
  nedskr : ℚ
  aterfor_nedskr : ℚ
  aterfor_nedskr_fsg : ℚ

/-- The zero contribution. -/
def BDelta.zero : BDelta := ⟨0, 0, 0, 0, 0, 0, 0, 0, 0, 0, 0⟩

/-- Pointwise sum of contributions. -/
def BDelta.add (x y : BDelta) : BDelta :=
  ⟨x.inkop + y.inkop, x.fsg + y.fsg, x.omklass + y.omklass, x.avskr + y.avskr,
   x.aterfor_avskr_fsg + y.aterfor_avskr_fsg, x.uppskr + y.uppskr,
   x.avskr_uppskr + y.avskr_uppskr, x.aterfor_uppskr_fsg + y.aterfor_uppskr_fsg,
   x.nedskr + y.nedskr, x.aterfor_nedskr + y.aterfor_nedskr,
   x.aterfor_nedskr_fsg + y.aterfor_nedskr_fsg⟩

/-- The per-voucher classification of the bygg parser (its
`for key, txs in trans_by_ver.items()` body). -/
def byggDelta (inAsset dep imp : ℕ → Bool) (txs : List (ℕ × ℚ)) : BDelta :=
  let A_D := sumD inAsset txs
  let A_K := sumK inAsset txs
  let F2085_D := sumD (fun a => a == 2085) txs
  let F2085_K := sumK (fun a => a == 2085) txs
  let DEP_D := sumD dep txs
  let DEP_K := sumK dep txs
  let IMP_D := sumD imp txs
  let IMP_K := sumK imp txs
  let has_PL := txs.any (fun t => t.1 == 3972 || t.1 == 7972)
  let has_depr_cost := txs.any (fun t =>
    (t.1 == 7820 || t.1 == 7821 || t.1 == 7824 || t.1 == 7829) ∧ 0 < t.2)
  let has_imp_cost := txs.any (fun t => t.1 == 7720 ∧ 0 < t.2)
  let has_imp_rev := txs.any (fun t => t.1 == 7770 ∧ t.2 < 0)
  -- 1) disposal
  let is_disposal := 0 < A_K ∧ (0 < DEP_D ∨ has_PL = true ∨ 0 < F2085_D)
  let dFsg := if is_disposal then A_K else 0
  let dAterforAvskrFsg := if is_disposal then DEP_D else 0
  let dAterforUppskrFsg := if is_disposal then F2085_D else 0
  let dAterforNedskrFsg := if is_disposal then IMP_D else 0
  -- 2) split debits into revaluation vs purchase
  let uppskr_amount := min A_D F2085_K
  let dUppskr := if 0 < uppskr_amount then uppskr_amount else 0
  let inkop_amount := max 0 (A_D - uppskr_amount)
  let dInkop := if 0 < inkop_amount then inkop_amount else 0
  -- 3) depreciation
  let dAvskrUppskr := if 0 < DEP_K ∧ 0 < F2085_D then min DEP_K F2085_D else 0
  let dAvskr := if 0 < DEP_K ∧ has_depr_cost = true ∧ F2085_D = 0 then DEP_K else 0
  -- 4) impairment (non-disposal)
  let dNedskr :=
    if has_imp_cost = true ∧ 0 < IMP_K then sumD (fun a => a == 7720) txs else 0
  let dAterforNedskr :=
    if has_imp_rev = true ∧ 0 < IMP_D ∧ A_K = 0 then IMP_D else 0
  -- 5) reclassification when no signals
  let signals := 0 < F2085_D + F2085_K + DEP_D + DEP_K + IMP_D + IMP_K ∨
    has_PL = true ∨ has_depr_cost = true ∨ has_imp_cost = true ∨ has_imp_rev = true
  let dOmklass := if 0 < A_D ∧ 0 < A_K ∧ ¬ signals then A_D - A_K else 0
  ⟨dInkop, dFsg, dOmklass, dAvskr, dAterforAvskrFsg, dUppskr, dAvskrUppskr,
   dAterforUppskrFsg, dNedskr, dAterforNedskr, dAterforNedskrFsg⟩

/-- The returned dictionary of `parse_bygg_k2_from_sie_text`. -/
structure ByggResult where
  bygg_ib : ℚ
  arets_inkop_bygg : ℚ
  arets_fsg_bygg : ℚ
  arets_omklass_bygg : ℚ
  bygg_ub : ℚ
  ack_avskr_bygg_ib : ℚ
  aterfor_avskr_fsg_bygg : ℚ
  arets_avskr_bygg : ℚ
  ack_avskr_bygg_ub : ℚ
  ack_uppskr_bygg_ib : ℚ
  arets_uppskr_bygg : ℚ
  arets_avskr_uppskr_bygg : ℚ
  aterfor_uppskr_fsg_bygg : ℚ
  ack_uppskr_bygg_ub : ℚ
  ack_nedskr_bygg_ib : ℚ
  arets_nedskr_bygg : ℚ
  aterfor_nedskr_bygg : ℚ
  aterfor_nedskr_fsg_bygg : ℚ
  ack_nedskr_bygg_ub : ℚ
  red_varde_bygg : ℚ
deriving DecidableEq

/-- Assemble the bygg result from the voucher totals and the four `#IB`
sums: the `UB formulas` block of the source. -/
def byggFinish (tot : BDelta)
    (bygg_ib ack_avskr_bygg_ib ack_nedskr_bygg_ib ack_uppskr_bygg_ib : ℚ) :
    ByggResult :=
  let bygg_ub := bygg_ib + tot.inkop - tot.fsg + tot.omklass
  let ack_avskr_bygg_ub := ack_avskr_bygg_ib + tot.aterfor_avskr_fsg - tot.avskr
  let ack_uppskr_bygg_ub := ack_uppskr_bygg_ib + tot.uppskr - tot.avskr_uppskr -
    tot.aterfor_uppskr_fsg
  let ack_nedskr_bygg_ub := ack_nedskr_bygg_ib + tot.aterfor_nedskr_fsg +
    tot.aterfor_nedskr - tot.nedskr
  { bygg_ib := bygg_ib
    arets_inkop_bygg := tot.inkop
    arets_fsg_bygg := tot.fsg
    arets_omklass_bygg := tot.omklass
    bygg_ub := bygg_ub
    ack_avskr_bygg_ib := ack_avskr_bygg_ib
    aterfor_avskr_fsg_bygg := tot.aterfor_avskr_fsg
    arets_avskr_bygg := tot.avskr
    ack_avskr_bygg_ub := ack_avskr_bygg_ub
    ack_uppskr_bygg_ib := ack_uppskr_bygg_ib
    arets_uppskr_bygg := tot.uppskr
    arets_avskr_uppskr_bygg := tot.avskr_uppskr
    aterfor_uppskr_fsg_bygg := tot.aterfor_uppskr_fsg
    ack_uppskr_bygg_ub := ack_uppskr_bygg_ub
    ack_nedskr_bygg_ib := ack_nedskr_bygg_ib
    arets_nedskr_bygg := tot.nedskr
    aterfor_nedskr_bygg := tot.aterfor_nedskr
    aterfor_nedskr_fsg_bygg := tot.aterfor_nedskr_fsg
    ack_nedskr_bygg_ub := ack_nedskr_bygg_ub
    red_varde_bygg := bygg_ub + ack_avskr_bygg_ub + ack_nedskr_bygg_ub +
      ack_uppskr_bygg_ub }

/-- `parse_bygg_k2_from_sie_text`.  `none` models the uncaught `ValueError`
of `_to_float` on a malformed balance amount (only the four year-0 `#IB`
scans call `_to_float`). -/
def parse_bygg_k2_from_sie_text (sie_text : String) : Option ByggResult :=
  let lines := sieLines sie_text
  let sru := sruScanB lines
  let sets := byggSets sru
  let inAsset : ℕ → Bool := fun a => inRanges sets.ranges a
  let dep : ℕ → Bool := fun a => sets.dep.contains a
  let imp : ℕ → Bool := fun a => sets.imp.contains a
  let vs := collectVouchers id (fun _ => "") lines
  let tot := vs.trans.foldl (fun acc kv => acc.add (byggDelta inAsset dep imp kv.2))
    BDelta.zero
  match get_balance lines "IB" inAsset, get_balance lines "IB" dep,
      get_balance lines "IB" imp, get_balance lines "IB" (fun a => a == 2085) with
  | some b1, some b2, some b3, some b4 => some (byggFinish tot b1 b2 b3 b4)
  | _, _, _, _ => none

/-! ## Intresseftg parser (`intresseftg_k2_parser.py`)

Case-sensitive regexes throughout. -/

/-- Split a string at its last quote: `(.*)"` requires at least one quote and
captures everything before the last one. -/
def lastQuoteSplit (t : List Char) : Option (List Char) :=
  let rev := t.reverse
  match rev.dropWhile (fun c => c ≠ '"') with
  | '"' :: before => some before.reverse
  | _ => none

/-- `konto_re = ^#KONTO\s+(\d{4})\s+"(.*)"` of the discovery step
(case-sensitive, greedy name capture up to the last quote). -/
def matchKontoI (cs : List Char) : Option (ℕ × String) := do
  let r1 ← stripLit id "#KONTO".data cs
  let r2 ← wsPlus r1
  let (acc, r3) ← digitRun 4 4 r2
  let r4 ← wsPlus r3
  match r4 with
  | '"' :: t =>
    match lastQuoteSplit t with
    | some inner => some (acc, ⟨inner⟩)
    | none => none
  | _ => none

/-- `sru_re = ^#SRU\s+(\d{4})\s+(\d+)` of the discovery step (no anchor). -/
def matchSruI (cs : List Char) : Option (ℕ × ℕ) := do
  let r1 ← stripLit id "#SRU".data cs
  let r2 ← wsPlus r1
  let (acc, r3) ← digitRun 4 4 r2
  let r4 ← wsPlus r3
  let ds := (takeDigits r4).1
  if ds.isEmpty then none else some (acc, digitsToNat ds)

/-- Generic association lookup. -/
def lookupA {α : Type} (m : List (ℕ × α)) (k : ℕ) : Option α :=
  (m.find? (fun p => p.1 == k)).map (fun p => p.2)

/-- The three roles of a 1330–1339 account. -/
inductive Role133
  | asset
  | accimp
  | contrib
deriving BEq, DecidableEq

/-- `default_accimp = {1332, 1334, 1337, 1338}` (BAS defaults). -/
def default_accimp : List ℕ := [1332, 1334, 1337, 1338]

/-- Contribution keywords of the discovery step. -/
def kw_contrib : List String :=
  ["aktieagartillskott", "aktieagar", "agartillskott", "agartill"]

/-- Impairment keywords of the discovery step. -/
def kw_imp : List String :=
  ["ack", "ackumuler", "nedskr", "vardened", "varde ned", "v neds"]

/-- The branch chain of the discovery loop for one account: undeclared
accounts fall back to the BAS default role; declared ones are classified by
contribution keywords, then impairment keywords / SRU 72xx hint / default
impairment membership, else asset. -/
def role133 (nameOpt : Option String) (sruOpt : Option ℕ) (acc : ℕ) : Role133 :=
  match nameOpt with
  | none => if default_accimp.contains acc then Role133.accimp else Role133.asset
  | some raw =>
    let nm := _norm raw
    let is_contrib := kw_contrib.any (fun k => strIn k nm)
    let is_imp_txt := kw_imp.any (fun k => strIn k nm)
    let is_imp_sru : Bool :=
      match sruOpt with
      | some sru => 7200 ≤ sru && sru < 7300
      | none => false
    if is_contrib then Role133.contrib
    else if is_imp_txt || is_imp_sru || default_accimp.contains acc then Role133.accimp
    else Role133.asset

/-- `range(1330, 1340)`. -/
def accRange133 : List ℕ := List.range' 1330 10

/-- The result of `discover_equity_account_map_for_range_133x`. -/
structure Disc133 where
  ASSET : List ℕ
  ACC_IMP : List ℕ
  CONTRIB : List ℕ
  names : List (ℕ × String)
  sru : List (ℕ × ℕ)

/-- The `#KONTO`/`#SRU` scan of the discovery step, restricted to 1330–1339
(`name_by_acc`, `sru_by_acc`). -/
def disc133scan (sie_text : String) :
    List (ℕ × String) × List (ℕ × ℕ) :=
  ((splitLines sie_text.data).map pyStrip).foldl
    (fun (p : List (ℕ × String) × List (ℕ × ℕ)) line =>
      match matchKontoI line with
      | some (acc, nm) =>
        if 1330 ≤ acc ∧ acc ≤ 1339 then ((acc, nm) :: p.1, p.2) else p
      | none =>
        match matchSruI line with
        | some (acc, v) =>
          if 1330 ≤ acc ∧ acc ≤ 1339 then (p.1, (acc, v) :: p.2) else p
        | none => p) ([], [])

/-- The role the discovery loop assigns to an account of the range. -/
def disc133role (sie_text : String) (acc : ℕ) : Role133 :=
  role133 (lookupA (disc133scan sie_text).1 acc)
    (lookupA (disc133scan sie_text).2 acc) acc

/-- The three sets built by the discovery loop from a role assignment: one
filter per role over `range(1330, 1340)`, then `ASSET -= CONTRIB`. -/
def disc133sets (role : ℕ → Role133) : List ℕ × List ℕ × List ℕ :=
  let contrib := accRange133.filter (fun a => role a == Role133.contrib)
  let accimp := accRange133.filter (fun a => role a == Role133.accimp)
  let asset0 := accRange133.filter (fun a => role a == Role133.asset)
  (asset0.filter (fun a => !(contrib.contains a)), accimp, contrib)

/-- `discover_equity_account_map_for_range_133x`: scan `#KONTO`/`#SRU` inside
1330–1339, assign each of the ten accounts its role, and remove contributions
from the asset set (`ASSET -= CONTRIB`). -/
def discover_equity_account_map_for_range_133x (sie_text : String) : Disc133 :=
  ⟨(disc133sets (disc133role sie_text)).1,
   (disc133sets (disc133role sie_text)).2.1,
   (disc133sets (disc133role sie_text)).2.2,
   (disc133scan sie_text).1, (disc133scan sie_text).2⟩

/-- One voucher's additive contribution to the intresseftg accumulators. -/
structure IDelta where
  inkop : ℚ
  fusion : ℚ
  fsg : ℚ
  c_lamnad : ℚ
  c_aterbetald : ℚ
  resultatandel : ℚ
  omklass : ℚ
  arets_nedskr : ℚ
  aterfor_nedskr : ℚ
  aterfor_nedskr_fsg : ℚ
  aterfor_nedskr_fusion : ℚ
  omklass_nedskr : ℚ

/-- The zero contribution. -/
def IDelta.zero : IDelta := ⟨0, 0, 0, 0, 0, 0, 0, 0, 0, 0, 0, 0⟩

/-- Pointwise sum of contributions. -/
def IDelta.add (x y : IDelta) : IDelta :=
  ⟨x.inkop + y.inkop, x.fusion + y.fusion, x.fsg + y.fsg,
   x.c_lamnad + y.c_lamnad, x.c_aterbetald + y.c_aterbetald,
   x.resultatandel + y.resultatandel, x.omklass + y.omklass,
   x.arets_nedskr + y.arets_nedskr, x.aterfor_nedskr + y.aterfor_nedskr,
   x.aterfor_nedskr_fsg + y.aterfor_nedskr_fsg,
   x.aterfor_nedskr_fusion + y.aterfor_nedskr_fusion,
   x.omklass_nedskr + y.omklass_nedskr⟩

/-- `res_plus` of the intresseftg voucher loop. -/
def intresseResPlus (asset : ℕ → Bool) (txs : List (ℕ × ℚ)) : ℚ :=
  resPlusOf (sumD asset txs) (sumK (fun a => a == 8240) txs)

/-- `res_minus` of the intresseftg voucher loop. -/
def intresseResMinus (asset : ℕ → Bool) (txs : List (ℕ × ℚ)) : ℚ :=
  resPlusOf (sumK asset txs) (sumD (fun a => a == 8240) txs)

/-- The per-voucher classification of the intresseftg parser.  Note that the
aktieägartillskott header-text branch of the source still books a purchase, and
that the impairment-reclassification bucket adds the sale-mutated `IMP_D`. -/
def intresseDelta (asset contribM impM : ℕ → Bool) (text : String)
    (txs : List (ℕ × ℚ)) : IDelta :=
  let A_D := sumD asset txs
  let A_K := sumK asset txs
  let C_D := sumD contribM txs
  let C_K := sumK contribM txs
  let IMP_D := sumD impM txs
  let IMP_K := sumK impM txs
  -- result share (signed)
  let res_plus := intresseResPlus asset txs
  let res_minus := intresseResMinus asset txs
  let RES_K := sumK (fun a => a == 8240) txs
  let RES_D := sumD (fun a => a == 8240) txs
  -- purchase / fusion from the remaining asset debit
  let inc := max 0 (A_D - res_plus)
  let dFusion := if 0 < inc ∧ strIn "fusion" text = true then inc else 0
  let dInkop := if 0 < inc ∧ ¬ (strIn "fusion" text = true) then inc else 0
  -- contributions given
  let dCLamnad := if 0 < C_D then C_D else 0
  -- disposal (negative by convention); ties the impairment debit to the sale
  let sale := (A_K - res_minus) + C_K
  let dAterforFsg := if 0 < sale ∧ 0 < IMP_D then IMP_D else 0
  let impD2 := if 0 < sale ∧ 0 < IMP_D then 0 else IMP_D
  let dFsg := if 0 < sale then -sale else 0
  let dCAter := if ¬ (0 < sale) ∧ 0 < C_K then -C_K else 0
  -- remaining impairment movements
  let dAterforFusion := if 0 < impD2 ∧ strIn "fusion" text = true then impD2 else 0
  let dAterfor := if 0 < impD2 ∧ ¬ (strIn "fusion" text = true) then impD2 else 0
  let dArets := if 0 < IMP_K then IMP_K else 0
  -- reclassification
  let asset_signals :=
    0 < RES_K ∨ 0 < RES_D ∨ 0 < impD2 ∨ 0 < IMP_K ∨ 0 < C_D ∨ 0 < C_K
  let dOmklass := if 0 < A_D ∧ 0 < A_K ∧ ¬ asset_signals then A_D - A_K else 0
  let dOmklassNedskr :=
    if 0 < IMP_D ∧ 0 < IMP_K ∧
       ¬ (0 < A_D ∨ 0 < A_K ∨ 0 < RES_K ∨ 0 < RES_D ∨ 0 < C_D ∨ 0 < C_K)
    then impD2 - IMP_K else 0
  ⟨dInkop, dFusion, dFsg, dCLamnad, dCAter, res_plus - res_minus, dOmklass,
   dArets, dAterfor, dAterforFsg, dAterforFusion, dOmklassNedskr⟩

/-- The returned dictionary of `parse_intresseftg_k2_from_sie_text`. -/
structure IntresseResult where
  intresseftg_ib : ℚ
  inkop_intresseftg : ℚ
  fusion_intresseftg : ℚ
  fsg_intresseftg : ℚ
  aktieagartillskott_lamnad_intresseftg : ℚ
  aktieagartillskott_aterbetald_intresseftg : ℚ
  resultatandel_intresseftg : ℚ
  omklass_intresseftg : ℚ
  intresseftg_ub : ℚ
  ack_nedskr_intresseftg_ib : ℚ
  arets_nedskr_intresseftg : ℚ
  aterfor_nedskr_intresseftg : ℚ
  aterfor_nedskr_fsg_intresseftg : ℚ
  aterfor_nedskr_fusion_intresseftg : ℚ
  omklass_nedskr_intresseftg : ℚ
  ack_nedskr_intresseftg_ub : ℚ
  red_varde_intresseftg : ℚ
deriving DecidableEq

/-- Assemble the intresseftg result from the voucher totals and the two
`#IB` sums (the `UB & book value` block of the source). -/
def intresseFinish (tot : IDelta)
    (intresseftg_ib ack_nedskr_intresseftg_ib : ℚ) : IntresseResult :=
  let intresseftg_ub := intresseftg_ib + tot.inkop + tot.fusion + tot.fsg +
    tot.c_lamnad + tot.c_aterbetald + tot.resultatandel + tot.omklass
  let ack_nedskr_intresseftg_ub := ack_nedskr_intresseftg_ib +
    tot.aterfor_nedskr_fsg + tot.aterfor_nedskr_fusion + tot.aterfor_nedskr +
    tot.omklass_nedskr - tot.arets_nedskr
  { intresseftg_ib := intresseftg_ib
    inkop_intresseftg := tot.inkop
    fusion_intresseftg := tot.fusion
    fsg_intresseftg := tot.fsg
    aktieagartillskott_lamnad_intresseftg := tot.c_lamnad
    aktieagartillskott_aterbetald_intresseftg := tot.c_aterbetald
    resultatandel_intresseftg := tot.resultatandel
    omklass_intresseftg := tot.omklass
    intresseftg_ub := intresseftg_ub
    ack_nedskr_intresseftg_ib := ack_nedskr_intresseftg_ib
    arets_nedskr_intresseftg := tot.arets_nedskr
    aterfor_nedskr_intresseftg := tot.aterfor_nedskr
    aterfor_nedskr_fsg_intresseftg := tot.aterfor_nedskr_fsg
    aterfor_nedskr_fusion_intresseftg := tot.aterfor_nedskr_fusion
    omklass_nedskr_intresseftg := tot.omklass_nedskr
    ack_nedskr_intresseftg_ub := ack_nedskr_intresseftg_ub
    red_varde_intresseftg := intresseftg_ub + ack_nedskr_intresseftg_ub }

/-- `parse_intresseftg_k2_from_sie_text`.  `none` models the uncaught
`ValueError` of `_to_float` on a malformed balance amount. -/
def parse_intresseftg_k2_from_sie_text (sie_text : String) :
    Option IntresseResult :=
  let pre : String := ⟨replaceNbspTab sie_text.data⟩
  let lines := (splitLines pre.data).map pyStrip
  let m := discover_equity_account_map_for_range_133x pre
  let assetM : ℕ → Bool := fun a => m.ASSET.contains a
  let contribM : ℕ → Bool := fun a => m.CONTRIB.contains a
  let impM : ℕ → Bool := fun a => m.ACC_IMP.contains a
  let vs := collectVouchers id (fun rest => lowerStr (verTextRawI rest)) lines
  let tot := vs.trans.foldl
    (fun acc kv =>
      acc.add (intresseDelta assetM contribM impM
        (lowerStr (getText vs.text kv.1)) kv.2))
    IDelta.zero
  match get_balance lines "IB" (fun a => assetM a || contribM a),
      get_balance lines "IB" impM with
  | some b1, some b2 => some (intresseFinish tot b1 b2)
  | _, _ => none

/-! ## Preclass contextual classifier (`account_preclass/preclass.py`) -/

/-- Worker for `replaceAll`, with fuel bounded by the input length. -/
def replaceAllGo (pat sub : List Char) : ℕ → List Char → List Char
  | 0, cs => cs
  | Nat.succ _, [] => []
  | Nat.succ f, c :: rest =>
    if pat ≠ [] ∧ isPre pat (c :: rest) = true then
      sub ++ replaceAllGo pat sub f ((c :: rest).drop pat.length)
    else c :: replaceAllGo pat sub f rest

/-- Python `str.replace`: left-to-right, non-overlapping. -/
def replaceAll (pat sub cs : List Char) : List Char :=
  replaceAllGo pat sub cs.length cs

/-- The mojibake replacement table of `fix_mojibake`, in insertion order. -/
def mojibakeTable : List (String × String) :=
  [("Ñ", "ä"), ("Ü", "å"), ("î", "ö"), ("ô", "ö"), ("ï", "ö"),
   ("Ür", "år"), ("fîretag", "företag"), ("koncernfîretag", "koncernföretag"),
   ("intressefîretag", "intresseföretag")]

/-- Strip leading and trailing quote characters (`.strip('"')`). -/
def stripQuotes (cs : List Char) : List Char :=
  ((cs.dropWhile (fun c => c == '"')).reverse.dropWhile (fun c => c == '"')).reverse

/-- `fix_mojibake`: NFKC normalization (the identity on the embedded
repertoire), the sequential replacement table, whitespace collapsing, strip,
and quote stripping. -/
def fix_mojibake (s : String) : String :=
  let t := mojibakeTable.foldl (fun cs p => replaceAll p.1.data p.2.data cs) s.data
  ⟨stripQuotes (pyStrip (collapseWs t))⟩

/-- `simplify`: `fix_mojibake`, lower-case, NFKD fold dropping combining
marks, then remove every non-word character. -/
def simplify (s : String) : String :=
  ⟨((fix_mojibake s).data.map foldChar).filter isWordChar⟩

/-- `KONCERN_SYNONYMS`. -/
def KONCERN_SYNONYMS : List String :=
  ["koncern", "koncernföretag", "koncernbolag", "gruppföretag", "gruppbolag",
   "dotter", "dotterbolag", "dotterföretag", "moder", "moderbolag", "moderföretag"]

/-- `INTRESSE_SYNONYMS`. -/
def INTRESSE_SYNONYMS : List String :=
  ["intresseföretag", "gemensamt styrda", "joint venture", "intresse"]

/-- `OVRIGA_SYNONYMS`. -/
def OVRIGA_SYNONYMS : List String :=
  ["övriga företag", "övr.", "övr", "andra företag", "andra ftg"]

/-- `AAT_WORDS`. -/
def AAT_WORDS : List String :=
  ["aktieägartillskott", "aktieagartillskott", "villkorat", "ovillkorat"]

/-- A piece of a `ROW_KEYS` pattern: a literal, `\s+`, or `.*`. -/
inductive RPart
  | lit (s : String)
  | ws
  | gap

/-- Match a part sequence at the current position (the title regexes are
searched, so trailing text is free; every `\s+` is followed by a literal
starting with a non-space, so skipping the whole run is exact). -/
def matchParts : List RPart → List Char → Bool
  | [], _ => true
  | RPart.lit s :: ps, cs => isPre s.data cs && matchParts ps (cs.drop s.data.length)
  | RPart.ws :: ps, cs =>
    (match cs with
     | c :: rest => isWsB c && matchParts ps (dropWs rest)
     | [] => false)
  | RPart.gap :: ps, cs => cs.tails.any (fun t => matchParts ps t)

/-- `re.search` of an alternation of part sequences over a (lower-cased)
title. -/
def searchPat (alts : List (List RPart)) (s : List Char) : Bool :=
  s.tails.any (fun t => alts.any (fun ps => matchParts ps t))

/-- The keys of `ROW_KEYS`. -/
inductive RowKey
  | koncern_shares
  | koncern_fordr_lt
  | koncern_fordr_st
  | koncern_skulder_lt
  | koncern_skulder_st
  | intresse_shares
  | intresse_fordr_lt
  | intresse_fordr_st
  | intresse_skulder_lt
  | intresse_skulder_st
deriving BEq, DecidableEq

/-- The `ROW_KEYS` title regexes as part sequences. -/
def rowKeyPat : RowKey → List (List RPart)
  | RowKey.koncern_shares =>
    [[RPart.lit "andelar", RPart.ws, RPart.lit "i", RPart.ws, RPart.lit "koncern"]]
  | RowKey.koncern_fordr_lt =>
    [[RPart.lit "långfristiga", RPart.gap, RPart.lit "fordringar", RPart.gap,
      RPart.lit "koncern"]]
  | RowKey.koncern_fordr_st =>
    [[RPart.lit "kortfristiga", RPart.gap, RPart.lit "fordringar", RPart.gap,
      RPart.lit "koncern"]]
  | RowKey.koncern_skulder_lt =>
    [[RPart.lit "långfristiga", RPart.gap, RPart.lit "skulder", RPart.gap,
      RPart.lit "koncern"]]
  | RowKey.koncern_skulder_st =>
    [[RPart.lit "kortfristiga", RPart.gap, RPart.lit "skulder", RPart.gap,
      RPart.lit "koncern"]]
  | RowKey.intresse_shares =>
    [[RPart.lit "andelar", RPart.ws, RPart.lit "i", RPart.ws,
      RPart.lit "intresseföretag"], [RPart.lit "gemensamt styrda"]]
  | RowKey.intresse_fordr_lt =>
    [[RPart.lit "långfristiga", RPart.gap, RPart.lit "fordringar", RPart.gap,
      RPart.lit "intresse"]]
  | RowKey.intresse_fordr_st =>
    [[RPart.lit "kortfristiga", RPart.gap, RPart.lit "fordringar", RPart.gap,
      RPart.lit "intresse"]]
  | RowKey.intresse_skulder_lt =>
    [[RPart.lit "långfristiga", RPart.gap, RPart.lit "skulder", RPart.gap,
      RPart.lit "intresse"]]
  | RowKey.intresse_skulder_st =>
    [[RPart.lit "kortfristiga", RPart.gap, RPart.lit "skulder", RPart.gap,
      RPart.lit "intresse"]]

/-- A balance-report mapping row; `contextual_target` consults only the id and
the title (the other `BrRow` fields feed the default-range matching, which is
outside this function). -/
structure BrRow where
  row_id : ℕ
  row_title : String

/-- `pick_row_id`: the first row whose title matches the key's regex
(case-insensitively). -/
def pick_row_id (rows : List BrRow) (key : RowKey) : Option ℕ :=
  (rows.find? (fun r => searchPat (rowKeyPat key) (lowerStr r.row_title).data)).map
    (fun r => r.row_id)

/-- `next(r.row_title for r in rows if r.row_id == rid)`. -/
def titleOf (rows : List BrRow) (rid : ℕ) : String :=
  match rows.find? (fun r => r.row_id == rid) with
  | some r => r.row_title
  | none => ""

/-- One `if rid: return (rid, title, reason)` step of `contextual_target`
(`rid = 0` is falsy in Python and therefore not a hit). -/
def rowHit (rows : List BrRow) (key : RowKey) (reason : String) :
    Option (ℕ × String × String) :=
  match pick_row_id rows key with
  | some rid => if rid ≠ 0 then some (rid, titleOf rows rid, reason) else none
  | none => none

/-- Alias sets per semantic group (`PartyAliases`). -/
structure PartyAliases where
  koncern : List String
  intresse : List String
  ovriga : List String

/-- `contextual_target` of `preclass.py`: the cascade of
alias/synonym/number-range rules that routes an account to a BR row.  The
`strict`/SRU tail of the source is a no-op (its body is `pass`) and is
omitted.  `a` is the account-number string of the `AccountInfo` key; `name`
is `info.name`. -/
def contextual_target (a : String) (name : String) (rows : List BrRow)
    (aliases : PartyAliases) (extra_koncern extra_intresse : List String) :
    Option (ℕ × String × String) :=
  let nm := fix_mojibake name
  let nm_low := lowerStr nm
  let nm_s := simplify nm
  let a_num := digitsToNat a.data
  let koncern_alias := aliases.koncern ++ extra_koncern.map simplify
  let intresse_alias := aliases.intresse ++ extra_intresse.map simplify
  let has : List String → Bool := fun toks => toks.any (fun t => strIn t nm_low)
  let in_any : String → List String → Bool := fun s alts =>
    alts.any (fun tok => tok ≠ "" && strIn tok s)
  let is_k := in_any nm_s koncern_alias || has KONCERN_SYNONYMS
  let is_i0 := in_any nm_s intresse_alias || has INTRESSE_SYNONYMS
  -- name says "intresseföretag" but an alias marks it as a subsidiary
  let is_i := if strIn "intresseföretag" nm_low && is_k then false else is_i0
  (if is_k && (has AAT_WORDS || (1310 ≤ a_num && a_num ≤ 1329)) then
    rowHit rows RowKey.koncern_shares "AAT/proximity 131x → Andelar i koncern"
  else none) <|>
  (if is_i && (has AAT_WORDS || (1330 ≤ a_num && a_num ≤ 1339)) then
    rowHit rows RowKey.intresse_shares "AAT/proximity 133x → Andelar i intresse"
  else none) <|>
  (if is_k && (strIn "fordr" nm_low ||
      (1320 ≤ a_num && a_num ≤ 1329) || (1680 ≤ a_num && a_num ≤ 1689)) then
    if 1320 ≤ a_num && a_num ≤ 1329 then
      rowHit rows RowKey.koncern_fordr_lt "Koncern fordringar (LT)"
    else rowHit rows RowKey.koncern_fordr_st "Koncern fordringar (ST)"
  else none) <|>
  (if is_k && strIn "skuld" nm_low then
    if 2300 ≤ a_num && a_num ≤ 2399 then
      rowHit rows RowKey.koncern_skulder_lt "Koncern skulder (LT)"
    else rowHit rows RowKey.koncern_skulder_st "Koncern skulder (ST)"
  else none) <|>
  (if is_i && (strIn "fordr" nm_low || (1340 ≤ a_num && a_num ≤ 1349)) then
    if 1340 ≤ a_num && a_num ≤ 1349 then
      rowHit rows RowKey.intresse_fordr_lt "Intresse fordringar (LT)"
    else rowHit rows RowKey.intresse_fordr_st "Intresse fordringar (ST)"
  else none) <|>
  (if is_i && strIn "skuld" nm_low then
    if 2300 ≤ a_num && a_num ≤ 2399 then
      rowHit rows RowKey.intresse_skulder_lt "Intresse skulder (LT)"
    else rowHit rows RowKey.intresse_skulder_st "Intresse skulder (ST)"
  else none) <|>
  (if strIn "intresseföretag" nm_low && is_k then
    if strIn "skuld" nm_low then
      rowHit rows RowKey.koncern_skulder_st "Override intresse→koncern"
    else if 1320 ≤ a_num && a_num ≤ 1329 then
      rowHit rows RowKey.koncern_fordr_lt "Override intresse→koncern"
    else rowHit rows RowKey.koncern_fordr_st "Override intresse→koncern"
  else none)

/-! ## Basic lemmas about the embedded arithmetic -/

theorem sumD_cons (p : ℕ → Bool) (t : ℕ × ℚ) (ts : List (ℕ × ℚ)) :
    sumD p (t :: ts) = if p t.1 ∧ 0 < t.2 then t.2 + sumD p ts else sumD p ts := rfl

theorem sumK_cons (p : ℕ → Bool) (t : ℕ × ℚ) (ts : List (ℕ × ℚ)) :
    sumK p (t :: ts) = if p t.1 ∧ t.2 < 0 then -t.2 + sumK p ts else sumK p ts := rfl

theorem sumD_nonneg (p : ℕ → Bool) (txs : List (ℕ × ℚ)) : 0 ≤ sumD p txs := by
  induction txs with
  | nil => simp [sumD]
  | cons t ts ih =>
    rw [sumD_cons]
    split
    · next h => linarith [h.2]
    · exact ih

theorem sumK_nonneg (p : ℕ → Bool) (txs : List (ℕ × ℚ)) : 0 ≤ sumK p txs := by
  induction txs with
  | nil => simp [sumK]
  | cons t ts ih =>
    rw [sumK_cons]
    split
    · next h => linarith [h.2]
    · exact ih

theorem resPlusOf_eq_min {x y : ℚ} (hx : 0 ≤ x) (hy : 0 ≤ y) :
    resPlusOf x y = min x y := by
  unfold resPlusOf
  split
  · rfl
  · next h =>
    rcases not_and_or.mp h with h1 | h1
    · have : y = 0 := le_antisymm (not_lt.mp h1) hy
      rw [this, min_eq_right hx]
    · have : x = 0 := le_antisymm (not_lt.mp h1) hx
      rw [this, min_eq_left hy]

theorem resPlusOf_nonneg {x y : ℚ} (hx : 0 ≤ x) (hy : 0 ≤ y) :
    0 ≤ resPlusOf x y := by
  unfold resPlusOf
  split
  · exact le_min hx hy
  · exact le_refl 0

theorem resPlusOf_le_left {x y : ℚ} (hx : 0 ≤ x) : resPlusOf x y ≤ x := by
  unfold resPlusOf
  split
  · exact min_le_left x y
  · exact hx

theorem getQ_setQ (m : AssocQ) (k : ℕ) (v : ℚ) : getQ (setQ m k v) k = v := by
  simp [getQ, setQ, List.find?]

theorem getQ_addQ (m : AssocQ) (k : ℕ) (v : ℚ) :
    getQ (addQ m k v) k = getQ m k + v := by
  simp [getQ, addQ, List.find?]

/-! ## Claim theorems -/

/-- The bygg asset roll-forward identity, by construction of `byggFinish`. -/
theorem byggFinish_ub (t : BDelta) (b1 b2 b3 b4 : ℚ) :
    (byggFinish t b1 b2 b3 b4).bygg_ub =
    (byggFinish t b1 b2 b3 b4).bygg_ib +
    (byggFinish t b1 b2 b3 b4).arets_inkop_bygg -
    (byggFinish t b1 b2 b3 b4).arets_fsg_bygg +
    (byggFinish t b1 b2 b3 b4).arets_omklass_bygg := rfl

/-- The bygg depreciation roll-forward identity. -/
theorem byggFinish_avskr_ub (t : BDelta) (b1 b2 b3 b4 : ℚ) :
    (byggFinish t b1 b2 b3 b4).ack_avskr_bygg_ub =
    (byggFinish t b1 b2 b3 b4).ack_avskr_bygg_ib +
    (byggFinish t b1 b2 b3 b4).aterfor_avskr_fsg_bygg -
    (byggFinish t b1 b2 b3 b4).arets_avskr_bygg := rfl

/-- The bygg revaluation roll-forward identity. -/
theorem byggFinish_uppskr_ub (t : BDelta) (b1 b2 b3 b4 : ℚ) :
    (byggFinish t b1 b2 b3 b4).ack_uppskr_bygg_ub =
    (byggFinish t b1 b2 b3 b4).ack_uppskr_bygg_ib +
    (byggFinish t b1 b2 b3 b4).arets_uppskr_bygg -
    (byggFinish t b1 b2 b3 b4).arets_avskr_uppskr_bygg -
    (byggFinish t b1 b2 b3 b4).aterfor_uppskr_fsg_bygg := rfl

/-- The bygg impairment roll-forward identity. -/
theorem byggFinish_nedskr_ub (t : BDelta) (b1 b2 b3 b4 : ℚ) :
    (byggFinish t b1 b2 b3 b4).ack_nedskr_bygg_ub =
    (byggFinish t b1 b2 b3 b4).ack_nedskr_bygg_ib +
    (byggFinish t b1 b2 b3 b4).aterfor_nedskr_fsg_bygg +
    (byggFinish t b1 b2 b3 b4).aterfor_nedskr_bygg -
    (byggFinish t b1 b2 b3 b4).arets_nedskr_bygg := rfl

/-- The all-zero koncern result, as returned on input without koncern
activity. -/
def kres0 : KoncernResult := ⟨0, 0, 0, 0, 0, 0, 0, 0, 0, 0, 0, 0, 0, 0, 0, 0, 0⟩

/-- The all-zero bygg result. -/
def bres0 : ByggResult := ⟨0, 0, 0, 0, 0, 0, 0, 0, 0, 0, 0, 0, 0, 0, 0, 0, 0, 0, 0, 0⟩

/-- Claim C1: in every per-category result the returned closing balance equals
the returned opening balance plus the signed sum of all returned movement
buckets, within 1e-6.  Proved exactly (difference zero) for the koncern
parser's asset and impairment roll-forwards and for all four bygg
roll-forwards: the sources compute the returned closing balances from exactly
these sums. -/
theorem claim_c1 :
    (∀ (s : String) (names : List String) (r : KoncernResult),
      parse_koncern_k2_from_sie_text s names = some r →
      |r.koncern_ub - (r.koncern_ib + r.inkop_koncern + r.fusion_koncern +
        r.aktieagartillskott_lamnad_koncern - r.fsg_koncern -
        r.aktieagartillskott_aterbetald_koncern + r.resultatandel_koncern +
        r.omklass_koncern)| ≤ 1 / 1000000 ∧
      |r.ack_nedskr_koncern_ub - (r.ack_nedskr_koncern_ib -
        r.arets_nedskr_koncern + r.aterfor_nedskr_koncern +
        r.aterfor_nedskr_fsg_koncern + r.aterfor_nedskr_fusion_koncern +
        r.omklass_nedskr_koncern)| ≤ 1 / 1000000) ∧
    (∀ (s : String) (r : ByggResult),
      parse_bygg_k2_from_sie_text s = some r →
      |r.bygg_ub - (r.bygg_ib + r.arets_inkop_bygg - r.arets_fsg_bygg +
        r.arets_omklass_bygg)| ≤ 1 / 1000000 ∧
      |r.ack_avskr_bygg_ub - (r.ack_avskr_bygg_ib + r.aterfor_avskr_fsg_bygg -
        r.arets_avskr_bygg)| ≤ 1 / 1000000 ∧
      |r.ack_uppskr_bygg_ub - (r.ack_uppskr_bygg_ib + r.arets_uppskr_bygg -
        r.arets_avskr_uppskr_bygg - r.aterfor_uppskr_fsg_bygg)| ≤ 1 / 1000000 ∧
      |r.ack_nedskr_bygg_ub - (r.ack_nedskr_bygg_ib + r.aterfor_nedskr_fsg_bygg +
        r.aterfor_nedskr_bygg - r.arets_nedskr_bygg)| ≤ 1 / 1000000) := by
  constructor
  · intro s names r h
    rw [parse_koncern_k2_from_sie_text, Option.map_eq_some'] at h
    obtain ⟨st, _, hr⟩ := h
    subst hr
    constructor
    · have e : (koncernBuild (sieLines s) st names).koncern_ub =
          (koncernBuild (sieLines s) st names).koncern_ib +
          (koncernBuild (sieLines s) st names).inkop_koncern +
          (koncernBuild (sieLines s) st names).fusion_koncern +
          (koncernBuild (sieLines s) st names).aktieagartillskott_lamnad_koncern -
          (koncernBuild (sieLines s) st names).fsg_koncern -
          (koncernBuild (sieLines s) st names).aktieagartillskott_aterbetald_koncern +
          (koncernBuild (sieLines s) st names).resultatandel_koncern +
          (koncernBuild (sieLines s) st names).omklass_koncern := rfl
      rw [e, sub_self, abs_zero]
      norm_num
    · have e : (koncernBuild (sieLines s) st names).ack_nedskr_koncern_ub =
          (koncernBuild (sieLines s) st names).ack_nedskr_koncern_ib -
          (koncernBuild (sieLines s) st names).arets_nedskr_koncern +
          (koncernBuild (sieLines s) st names).aterfor_nedskr_koncern +
          (koncernBuild (sieLines s) st names).aterfor_nedskr_fsg_koncern +
          (koncernBuild (sieLines s) st names).aterfor_nedskr_fusion_koncern +
          (koncernBuild (sieLines s) st names).omklass_nedskr_koncern := rfl
      rw [e, sub_self, abs_zero]
      norm_num
  · intro s r h
    rw [parse_bygg_k2_from_sie_text] at h
    split at h
    · next b1 b2 b3 b4 _ _ _ _ =>
      rw [Option.some.injEq] at h
      subst h
      refine ⟨?_, ?_, ?_, ?_⟩
      · rw [byggFinish_ub, sub_self, abs_zero]; norm_num
      · rw [byggFinish_avskr_ub, sub_self, abs_zero]; norm_num
      · rw [byggFinish_uppskr_ub, sub_self, abs_zero]; norm_num
      · rw [byggFinish_nedskr_ub, sub_self, abs_zero]; norm_num
    · exact absurd h (by simp)


/-- Witness for C1 at a concrete input: the empty ledger parses to the
all-zero result and the identities hold there. -/
theorem claim_c1_witness :
    parse_koncern_k2_from_sie_text "" [] = some kres0 ∧
    parse_bygg_k2_from_sie_text "" = some bres0 ∧
    (|kres0.koncern_ub - (kres0.koncern_ib + kres0.inkop_koncern +
      kres0.fusion_koncern + kres0.aktieagartillskott_lamnad_koncern -
      kres0.fsg_koncern - kres0.aktieagartillskott_aterbetald_koncern +
      kres0.resultatandel_koncern + kres0.omklass_koncern)| ≤ 1 / 1000000 ∧
     |kres0.ack_nedskr_koncern_ub - (kres0.ack_nedskr_koncern_ib -
      kres0.arets_nedskr_koncern + kres0.aterfor_nedskr_koncern +
      kres0.aterfor_nedskr_fsg_koncern + kres0.aterfor_nedskr_fusion_koncern +
      kres0.omklass_nedskr_koncern)| ≤ 1 / 1000000) ∧
    (|bres0.bygg_ub - (bres0.bygg_ib + bres0.arets_inkop_bygg -
      bres0.arets_fsg_bygg + bres0.arets_omklass_bygg)| ≤ 1 / 1000000 ∧
     |bres0.ack_avskr_bygg_ub - (bres0.ack_avskr_bygg_ib +
      bres0.aterfor_avskr_fsg_bygg - bres0.arets_avskr_bygg)| ≤ 1 / 1000000 ∧
     |bres0.ack_uppskr_bygg_ub - (bres0.ack_uppskr_bygg_ib +
      bres0.arets_uppskr_bygg - bres0.arets_avskr_uppskr_bygg -
      bres0.aterfor_uppskr_fsg_bygg)| ≤ 1 / 1000000 ∧
     |bres0.ack_nedskr_bygg_ub - (bres0.ack_nedskr_bygg_ib +
      bres0.aterfor_nedskr_fsg_bygg + bres0.aterfor_nedskr_bygg -
      bres0.arets_nedskr_bygg)| ≤ 1 / 1000000) := by
  have hk : parse_koncern_k2_from_sie_text "" [] = some kres0 := by
    with_unfolding_all rfl
  have hb : parse_bygg_k2_from_sie_text "" = some bres0 := by
    with_unfolding_all rfl
  exact ⟨hk, hb, claim_c1.1 "" [] kres0 hk, claim_c1.2 "" bres0 hb⟩

/-- Claim C2 (amended): the koncern aggregator does not compare the parsed
closing balance against the computed one and attaches no warning; it
unconditionally replaces the `#UB`-derived figure with
`opening + Σ movements` (the returned record carries no warning field at
all).  Stated as: the returned closing balance always equals the opening
balance plus the signed movement sum, whatever the `#UB` records said. -/
theorem claim_c2 :
    ∀ (s : String) (names : List String) (r : KoncernResult),
      parse_koncern_k2_from_sie_text s names = some r →
      r.koncern_ub = r.koncern_ib + r.inkop_koncern + r.fusion_koncern +
        r.aktieagartillskott_lamnad_koncern - r.fsg_koncern -
        r.aktieagartillskott_aterbetald_koncern + r.resultatandel_koncern +
        r.omklass_koncern := by
  intro s names r h
  rw [parse_koncern_k2_from_sie_text, Option.map_eq_some'] at h
  obtain ⟨st, _, hr⟩ := h
  subst hr
  rfl

/-- Counterexample for C2 as stated: on a ledger whose `#UB` records give a
closing balance of 500 while no movements were classified, the parser returns
`koncern_ub = 0` — the parsed closing figure is silently replaced by the
computed one, and the returned record has no warning attached (its type has no
warning field). -/
theorem claim_c2_counterexample :
    (parse_koncern_k2_from_sie_text "#IB 0 1310 0\n#UB 0 1310 500" []).map
      (fun r => r.koncern_ub) = some 0 ∧
    koncernParsedUb "#IB 0 1310 0\n#UB 0 1310 500" [] = some 500 := by
  constructor
  · with_unfolding_all rfl
  · with_unfolding_all rfl

/-- Witness for C2 at a concrete input. -/
theorem claim_c2_witness :
    parse_koncern_k2_from_sie_text "#UB 0 1310 500" [] = some kres0 ∧
    kres0.koncern_ub = kres0.koncern_ib + kres0.inkop_koncern +
      kres0.fusion_koncern + kres0.aktieagartillskott_lamnad_koncern -
      kres0.fsg_koncern - kres0.aktieagartillskott_aterbetald_koncern +
      kres0.resultatandel_koncern + kres0.omklass_koncern := by
  have hk : parse_koncern_k2_from_sie_text "#UB 0 1310 500" [] = some kres0 := by
    with_unfolding_all rfl
  exact ⟨hk, claim_c2 "#UB 0 1310 500" [] kres0 hk⟩

/-- Claim C7: the balance line `#IB 0 1310 1.2.3` matches the recognized
balance pattern (`rx_bal`), yet the run aborts: `_f`/`_to_float` raise an
uncaught `ValueError` on the captured amount, modelled as `none`.  The spec
requires such a line to be skipped with the run continuing. -/
theorem claim_c7 :
    (matchBalK "#IB 0 1310 1.2.3".data).isSome = true ∧
    parse_koncern_k2_from_sie_text "#IB 0 1310 1.2.3" [] = none ∧
    parse_bygg_k2_from_sie_text "#IB 0 1110 1.2.3" = none := by
  refine ⟨?_, ?_, ?_⟩
  · with_unfolding_all rfl
  · with_unfolding_all rfl
  · with_unfolding_all rfl

/-- Claim C8 (amended): for year-0 balance records the koncern parser is
last-write-wins for `#IB` and `#UB`, but `#RES` records are accumulated — the
retained value is the sum of all matching records, not the last one. -/
theorem claim_c8 :
    ∀ (recs : List (BalTag × ℤ × ℕ × ℚ)) (acc : ℕ) (v : ℚ),
      getQ ((recs ++ [(BalTag.IB, 0, acc, v)]).foldl koncernApplyBal
        ⟨[], [], [], []⟩).ib acc = v ∧
      getQ ((recs ++ [(BalTag.UB, 0, acc, v)]).foldl koncernApplyBal
        ⟨[], [], [], []⟩).ub acc = v ∧
      getQ ((recs ++ [(BalTag.RES, 0, acc, v)]).foldl koncernApplyBal
        ⟨[], [], [], []⟩).res acc =
        getQ (recs.foldl koncernApplyBal ⟨[], [], [], []⟩).res acc + v := by
  intro recs acc v
  refine ⟨?_, ?_, ?_⟩ <;>
    rw [List.foldl_append] <;>
    simp [koncernApplyBal, getQ_setQ, getQ_addQ]

/-- Counterexample for C8 as stated: two identical `#RES 0 8030 100` records
yield a retained period result of 200 (the parser's result share is its
negation, -200); last-write-wins would retain 100. -/
theorem claim_c8_counterexample :
    (parse_koncern_k2_from_sie_text "#RES 0 8030 100\n#RES 0 8030 100" []).map
      (fun r => r.resultatandel_koncern) = some (-200) := by
  with_unfolding_all rfl

/-- Claim C9: classification is deterministic — two runs on equal inputs give
equal outputs.  The embedded semantics is a pure function of the ledger text
and alias input; the sources iterate only over insertion-ordered dicts and
use no clock or randomness. -/
theorem claim_c9 :
    ∀ (s₁ s₂ : String) (n₁ n₂ : List String), s₁ = s₂ → n₁ = n₂ →
      parse_koncern_k2_from_sie_text s₁ n₁ = parse_koncern_k2_from_sie_text s₂ n₂ ∧
      parse_intresseftg_k2_from_sie_text s₁ = parse_intresseftg_k2_from_sie_text s₂ := by
  intro s₁ s₂ n₁ n₂ hs hn
  subst hs
  subst hn
  exact ⟨rfl, rfl⟩

/-- Witness for C9 at a concrete input. -/
theorem claim_c9_witness :
    parse_koncern_k2_from_sie_text "" [] = parse_koncern_k2_from_sie_text "" [] ∧
    parse_intresseftg_k2_from_sie_text "" = parse_intresseftg_k2_from_sie_text "" :=
  claim_c9 "" "" [] [] rfl rfl

instance : LawfulBEq Role133 where
  eq_of_beq := by
    intro a b h
    cases a <;> cases b <;> first | rfl | exact absurd h (by decide)
  rfl := by intro a; cases a <;> decide

/-- Membership description of the three discovery sets, for any role
assignment: each set holds exactly the accounts of `range(1330, 1340)` having
the corresponding role (the `ASSET -= CONTRIB` subtraction removes nothing
because the roles are exclusive). -/
theorem disc133sets_mem (role : ℕ → Role133) (a : ℕ) :
    (a ∈ (disc133sets role).1 ↔
      (1330 ≤ a ∧ a < 1340) ∧ role a = Role133.asset) ∧
    (a ∈ (disc133sets role).2.1 ↔
      (1330 ≤ a ∧ a < 1340) ∧ role a = Role133.accimp) ∧
    (a ∈ (disc133sets role).2.2 ↔
      (1330 ≤ a ∧ a < 1340) ∧ role a = Role133.contrib) := by
  have hrange : a ∈ accRange133 ↔ 1330 ≤ a ∧ a < 1340 := by
    rw [accRange133, List.mem_range'_1]
  have hmemC : a ∈ accRange133.filter (fun x => role x == Role133.contrib) ↔
      (1330 ≤ a ∧ a < 1340) ∧ role a = Role133.contrib := by
    rw [List.mem_filter, hrange, beq_iff_eq]
  have hmemI : a ∈ accRange133.filter (fun x => role x == Role133.accimp) ↔
      (1330 ≤ a ∧ a < 1340) ∧ role a = Role133.accimp := by
    rw [List.mem_filter, hrange, beq_iff_eq]
  have hmemA : a ∈ accRange133.filter (fun x => role x == Role133.asset) ↔
      (1330 ≤ a ∧ a < 1340) ∧ role a = Role133.asset := by
    rw [List.mem_filter, hrange, beq_iff_eq]
  refine ⟨?_, hmemI, hmemC⟩
  have e : (disc133sets role).1 =
      (accRange133.filter (fun x => role x == Role133.asset)).filter
        (fun x => !((accRange133.filter
          (fun y => role y == Role133.contrib)).contains x)) := rfl
  rw [e, List.mem_filter, hmemA]
  constructor
  · rintro ⟨h1, -⟩
    exact h1
  · rintro ⟨hr, hrole⟩
    refine ⟨⟨hr, hrole⟩, ?_⟩
    have hnot : a ∉ accRange133.filter (fun y => role y == Role133.contrib) := by
      rw [hmemC]
      rintro ⟨-, hc⟩
      rw [hrole] at hc
      exact Role133.noConfusion hc
    have hcf : (accRange133.filter (fun y => role y == Role133.contrib)).contains a
        = false := by
      by_contra hc
      rw [Bool.not_eq_false] at hc
      exact hnot (List.elem_iff.mp hc)
    rw [hcf]
    rfl

/-- Claim C10: for every input text the 1330–1339 account-role discovery
returns three pairwise disjoint sets whose union is exactly the ten account
numbers 1330–1339; an account absent from the ledger falls back to the fixed
BAS default role table (`default_accimp` vs. asset). -/
theorem claim_c10 :
    ∀ (s : String) (a : ℕ),
      ((a ∈ (discover_equity_account_map_for_range_133x s).ASSET ∨
        a ∈ (discover_equity_account_map_for_range_133x s).ACC_IMP ∨
        a ∈ (discover_equity_account_map_for_range_133x s).CONTRIB) ↔
        (1330 ≤ a ∧ a ≤ 1339)) ∧
      ¬ (a ∈ (discover_equity_account_map_for_range_133x s).ASSET ∧
         a ∈ (discover_equity_account_map_for_range_133x s).ACC_IMP) ∧
      ¬ (a ∈ (discover_equity_account_map_for_range_133x s).ASSET ∧
         a ∈ (discover_equity_account_map_for_range_133x s).CONTRIB) ∧
      ¬ (a ∈ (discover_equity_account_map_for_range_133x s).ACC_IMP ∧
         a ∈ (discover_equity_account_map_for_range_133x s).CONTRIB) ∧
      (1330 ≤ a → a ≤ 1339 →
        lookupA (discover_equity_account_map_for_range_133x s).names a = none →
        (a ∈ (discover_equity_account_map_for_range_133x s).ACC_IMP ↔
          a ∈ default_accimp)) := by
  intro s a
  have eA : (discover_equity_account_map_for_range_133x s).ASSET =
      (disc133sets (disc133role s)).1 := rfl
  have eI : (discover_equity_account_map_for_range_133x s).ACC_IMP =
      (disc133sets (disc133role s)).2.1 := rfl
  have eC : (discover_equity_account_map_for_range_133x s).CONTRIB =
      (disc133sets (disc133role s)).2.2 := rfl
  have eN : (discover_equity_account_map_for_range_133x s).names =
      (disc133scan s).1 := rfl
  obtain ⟨hA, hI, hC⟩ := disc133sets_mem (disc133role s) a
  rw [eA, eI, eC, eN, hA, hI, hC]
  refine ⟨?_, ?_, ?_, ?_, ?_⟩
  · constructor
    · rintro (⟨⟨h1, h2⟩, -⟩ | ⟨⟨h1, h2⟩, -⟩ | ⟨⟨h1, h2⟩, -⟩) <;> omega
    · rintro ⟨h1, h2⟩
      have hb : 1330 ≤ a ∧ a < 1340 := by omega
      cases hrole : disc133role s a with
      | asset => exact Or.inl ⟨hb, rfl⟩
      | accimp => exact Or.inr (Or.inl ⟨hb, rfl⟩)
      | contrib => exact Or.inr (Or.inr ⟨hb, rfl⟩)
  · rintro ⟨⟨-, h1⟩, -, h2⟩
    rw [h1] at h2
    exact Role133.noConfusion h2
  · rintro ⟨⟨-, h1⟩, -, h2⟩
    rw [h1] at h2
    exact Role133.noConfusion h2
  · rintro ⟨⟨-, h1⟩, -, h2⟩
    rw [h1] at h2
    exact Role133.noConfusion h2
  · intro h1 h2 hnone
    have hrole : disc133role s a =
        (if default_accimp.contains a then Role133.accimp else Role133.asset) := by
      rw [disc133role]
      rw [show lookupA (disc133scan s).1 a = none from hnone]
      rfl
    constructor
    · rintro ⟨-, hr⟩
      rw [hrole] at hr
      by_contra hmem
      have hcf : default_accimp.contains a = false := by
        by_contra hc
        rw [Bool.not_eq_false] at hc
        exact hmem (List.elem_iff.mp hc)
      rw [hcf] at hr
      exact Role133.noConfusion hr
    · intro hmem
      refine ⟨by omega, ?_⟩
      rw [hrole]
      have hct : default_accimp.contains a = true := List.elem_iff.mpr hmem
      rw [hct]
      rfl

/-- Witness for C10 at a concrete input: in an empty ledger account 1332 is
undeclared and lands in the accumulated-impairment set by the BAS default. -/
theorem claim_c10_witness :
    ((1330 : ℕ) ≤ 1332 ∧ (1332 : ℕ) ≤ 1339) ∧
    lookupA (discover_equity_account_map_for_range_133x "").names 1332 = none ∧
    (1332 ∈ (discover_equity_account_map_for_range_133x "").ACC_IMP ↔
      1332 ∈ default_accimp) :=
  ⟨by decide, by decide,
   (claim_c10 "" 1332).2.2.2.2 (by decide) (by decide) (by decide)⟩

/-- Claim C5 (amended, koncern-parser part): in the koncern parser's name
heuristics a receivable-keyword account name is never classified into the
share or contribution sets, whatever the account number and whatever
company-name tokens match. -/
theorem claim_c5 :
    ∀ (konto : ℕ → String) (tokens : List String) (a : ℕ),
      is_receivable (konto a) = true →
      ¬ a ∈ koncernAndelSet konto tokens ∧ ¬ a ∈ koncernAatSet konto := by
  intro konto tokens a hrecv
  constructor
  · intro hmem
    rw [koncernAndelSet] at hmem
    rcases List.mem_append.mp hmem with h12 | h3
    · rcases List.mem_append.mp h12 with h1 | h2
      · have hc := (List.mem_filter.mp h1).2
        simp only [decide_eq_true_eq] at hc
        rw [hrecv] at hc
        simp at hc
      · have hc := (List.mem_filter.mp h2).2
        simp only [decide_eq_true_eq] at hc
        rw [hrecv] at hc
        simp at hc
    · have hc := (List.mem_filter.mp h3).2
      simp only [decide_eq_true_eq] at hc
      rw [hrecv] at hc
      simp at hc
  · intro hmem
    rw [koncernAatSet] at hmem
    rcases List.mem_append.mp hmem with h1 | h2
    · have hc := (List.mem_filter.mp h1).2
      simp only [decide_eq_true_eq] at hc
      rw [hrecv] at hc
      simp at hc
    · have hc := (List.mem_filter.mp h2).2
      simp only [decide_eq_true_eq] at hc
      rw [hrecv] at hc
      simp at hc

/-- Counterexample for C5 as stated: in `contextual_target` the
131x-proximity rule routes account 1311, named with the receivable keyword
"fordran", to the koncern *shares* row because the name also contains the
koncern synonym "dotter" — the account-number range overrides the receivable
keyword there. -/
theorem claim_c5_counterexample :
    is_receivable (_norm_text "Fordran hos Dotterbolag AB") = true ∧
    contextual_target "1311" "Fordran hos Dotterbolag AB"
      [⟨7, "Andelar i koncernföretag"⟩,
       ⟨8, "Kortfristiga fordringar hos koncernföretag"⟩]
      ⟨[], [], []⟩ [] [] =
      some (7, "Andelar i koncernföretag",
        "AAT/proximity 131x → Andelar i koncern") := by
  constructor
  · decide
  · decide

/-- A concrete chart of accounts for the C5 witness. -/
def kontoEx : ℕ → String := fun a =>
  if a = 1311 then "fordran hos dotterbolag" else ""

/-- Witness for C5 at a concrete input. -/
theorem claim_c5_witness :
    is_receivable (kontoEx 1311) = true ∧
    (¬ 1311 ∈ koncernAndelSet kontoEx [] ∧ ¬ 1311 ∈ koncernAatSet kontoEx) :=
  ⟨by decide, claim_c5 kontoEx [] 1311 (by decide)⟩

/-- The D-and-K reclassification voucher of the C3 counterexample (koncern
accounts). -/
def kEx3 : String :=
  "#VER A 1 20240101\n\x7b\n#TRANS 1310 5000\n#TRANS 1311 -5000\n\x7d"

/-- The same voucher on building accounts. -/
def bEx3 : String :=
  "#VER A 1 20240101\n\x7b\n#TRANS 1110 5000\n#TRANS 1130 -5000\n\x7d"

/-- Counterexample for C3 as stated: a voucher posting `D asset 5000` and
`K asset 5000` with no signal-account activity books 0 to reclassification
but still adds 5000 to the purchase total, in both cited parsers. -/
theorem claim_c3_counterexample :
    (parse_koncern_k2_from_sie_text kEx3 []).map
      (fun r => (r.inkop_koncern, r.omklass_koncern, r.fsg_koncern)) =
      some (5000, 0, 0) ∧
    (parse_bygg_k2_from_sie_text bEx3).map
      (fun r => (r.arets_inkop_bygg, r.arets_omklass_bygg, r.arets_fsg_bygg)) =
      some (5000, 0, 0) := by
  constructor
  · with_unfolding_all rfl
  · with_unfolding_all rfl

/-- Claim C3 (amended): in a voucher with both an asset-side debit and an
asset-side credit and no signal-account activity, the net `D - K` is booked to
the reclassification bucket, but the debit is still added in full to the
purchase total.  The bygg parser adds nothing to the disposal total; the
koncern parser routes the credit by the voucher header text: it goes to the
disposal total when the header carries a sale keyword and the voucher is not a
recognised payout of a prior-year result share, and is otherwise subtracted
from the result-share bucket. -/
theorem claim_c3 :
    (∀ (inAsset dep imp : ℕ → Bool) (txs : List (ℕ × ℚ)),
      sumD (fun a => a == 2085) txs = 0 → sumK (fun a => a == 2085) txs = 0 →
      sumD dep txs = 0 → sumK dep txs = 0 →
      sumD imp txs = 0 → sumK imp txs = 0 →
      txs.any (fun t => t.1 == 3972 || t.1 == 7972) = false →
      txs.any (fun t =>
        (t.1 == 7820 || t.1 == 7821 || t.1 == 7824 || t.1 == 7829) ∧ 0 < t.2) = false →
      txs.any (fun t => t.1 == 7720 ∧ 0 < t.2) = false →
      txs.any (fun t => t.1 == 7770 ∧ t.2 < 0) = false →
      0 < sumD inAsset txs → 0 < sumK inAsset txs →
      (byggDelta inAsset dep imp txs).omklass =
        sumD inAsset txs - sumK inAsset txs ∧
      (byggDelta inAsset dep imp txs).inkop = sumD inAsset txs ∧
      (byggDelta inAsset dep imp txs).fsg = 0) ∧
    (∀ (andel aat imp : ℕ → Bool) (text : String) (txs : List (ℕ × ℚ)),
      sumK resShareK txs = 0 → sumD resShareK txs = 0 →
      sumD imp txs = 0 → sumK imp txs = 0 →
      txs.any (fun t => salePnl t.1) = false →
      0 < sumD andel txs + sumD aat txs →
      0 < sumK andel txs + sumK aat txs →
      (koncernDelta andel aat imp text txs).omklass =
        (sumD andel txs + sumD aat txs) - (sumK andel txs + sumK aat txs) ∧
      (koncernDelta andel aat imp text txs).inkop +
        (koncernDelta andel aat imp text txs).fusion = sumD andel txs ∧
      (koncernDelta andel aat imp text txs).aat_lamnad = sumD aat txs ∧
      (koncernDelta andel aat imp text txs).aat_aterbetald = sumK aat txs ∧
      (koncernDelta andel aat imp text txs).fsg -
        ((koncernDelta andel aat imp text txs).resultatandel) = sumK andel txs ∧
      (((["försälj", "avyttr", "sale"].any fun k => strIn k text) = true ∧
          ¬ is_payout_prior_share andel aat imp text txs →
        (koncernDelta andel aat imp text txs).fsg = sumK andel txs ∧
        (koncernDelta andel aat imp text txs).resultatandel = 0) ∧
       ((["försälj", "avyttr", "sale"].any fun k => strIn k text) = false ∨
          is_payout_prior_share andel aat imp text txs →
        (koncernDelta andel aat imp text txs).fsg = 0 ∧
        (koncernDelta andel aat imp text txs).resultatandel =
          -(sumK andel txs)))) := by
  constructor
  · intro inAsset dep imp txs h2085D h2085K hDepD hDepK hImpD hImpK hPL hDC hIC hIR hAD hAK
    have hADn := sumD_nonneg inAsset txs
    refine ⟨?_, ?_, ?_⟩
    · simp only [byggDelta, h2085D, h2085K, hDepD, hDepK, hImpD, hImpK, hPL, hDC,
        hIC, hIR]
      norm_num
      intro h
      linarith [h hAD]
    · simp only [byggDelta, h2085D, h2085K, hDepD, hDepK, hImpD, hImpK, hPL, hDC,
        hIC, hIR]
      norm_num
      rw [min_eq_right hADn, sub_zero, if_pos hAD]
    · simp only [byggDelta, h2085D, h2085K, hDepD, hDepK, hImpD, hImpK, hPL, hDC,
        hIC, hIR]
      norm_num
  · intro andel aat imp text txs hRK hRD hID hIK hPL hAD hAK
    have hDa := sumD_nonneg andel txs
    have hDt := sumD_nonneg aat txs
    have hKa := sumK_nonneg andel txs
    have hKt := sumK_nonneg aat txs
    have hplus : koncernResPlus andel aat txs = 0 := by
      rw [koncernResPlus, hRK, resPlusOf]
      norm_num
    have hminus : koncernResMinus andel aat txs = 0 := by
      rw [koncernResMinus, hRD, resPlusOf]
      norm_num
    have hrem : koncernRemAndelK andel aat txs = sumK andel txs := by
      rw [koncernRemAndelK, hminus, min_eq_right hKa, sub_zero, max_eq_right hKa]
    refine ⟨?_, ?_, ?_, ?_, ?_, ?_, ?_⟩
    · simp only [koncernDelta, hplus, hminus, hrem, hRK, hRD, hID, hIK, hPL]
      norm_num
      intro h
      linarith [h hAD]
    · simp only [koncernDelta, hplus, hminus, hrem, hRK, hRD, hID, hIK, hPL]
      norm_num
      rw [min_eq_right hDa, sub_zero]
      by_cases hd : 0 < sumD andel txs
      · cases ht : strIn "fusion" text with
        | false =>
          rw [if_pos ⟨hd, rfl⟩, if_neg (by simp), add_zero]
        | true =>
          rw [if_neg (by simp), if_pos ⟨hd, rfl⟩, zero_add]
      · have h0 : sumD andel txs = 0 := le_antisymm (not_lt.mp hd) hDa
        rw [if_neg (by tauto), if_neg (by tauto), h0, add_zero]
    · simp only [koncernDelta, hplus, hminus, hrem, hRK, hRD, hID, hIK, hPL]
      norm_num
      rw [min_eq_right hDa, neg_zero, min_eq_right hDt, sub_zero]
      by_cases hd : 0 < sumD aat txs
      · rw [if_pos hd]
      · have h0 : sumD aat txs = 0 := le_antisymm (not_lt.mp hd) hDt
        rw [if_neg hd, h0]
    · simp only [koncernDelta, hplus, hminus, hrem, hRK, hRD, hID, hIK, hPL]
      norm_num
      rw [min_eq_right hKa, neg_zero, min_eq_right hKt, sub_zero]
      by_cases hd : 0 < sumK aat txs
      · rw [if_pos hd]
      · have h0 : sumK aat txs = 0 := le_antisymm (not_lt.mp hd) hKt
        rw [if_neg hd, h0]
    · simp only [koncernDelta, hplus, hminus, hrem, hRK, hRD, hID, hIK, hPL]
      norm_num
      split_ifs <;> linarith
    · rintro ⟨hkw, hnp⟩
      constructor
      · simp only [koncernDelta, hplus, hminus, hrem, hRK, hRD, hID, hIK, hPL, hkw]
        norm_num
        by_cases h0 : 0 < sumK andel txs
        · rw [if_pos h0, if_neg hnp]
        · rw [if_neg h0]
          linarith
      · simp only [koncernDelta, hplus, hminus, hrem, hRK, hRD, hID, hIK, hPL, hkw]
        norm_num
        intro h0 hp
        exact absurd hp hnp
    · rintro (hkw | hp)
      · constructor
        · simp only [koncernDelta, hplus, hminus, hrem, hRK, hRD, hID, hIK, hPL, hkw]
          norm_num
        · simp only [koncernDelta, hplus, hminus, hrem, hRK, hRD, hID, hIK, hPL, hkw]
          norm_num
          intro h
          exact le_antisymm h hKa
      · constructor
        · simp only [koncernDelta, hplus, hminus, hrem, hRK, hRD, hID, hIK, hPL]
          norm_num
          intro h0 hnp hkw
          exact absurd hp hnp
        · simp only [koncernDelta, hplus, hminus, hrem, hRK, hRD, hID, hIK, hPL]
          norm_num
          by_cases h0 : 0 < sumK andel txs
          · rw [if_pos h0, if_pos hp]
          · rw [if_neg h0]
            have h1 : sumK andel txs = 0 := le_antisymm (not_lt.mp h0) hKa
            rw [h1, neg_zero]

/-- Concrete voucher postings for the C3 witness (building accounts). -/
def wtxsB : List (ℕ × ℚ) := [(1110, 5000), (1130, -5000)]

/-- Concrete voucher postings for the C3 witness (koncern accounts). -/
def wtxsK : List (ℕ × ℚ) := [(1310, 5000), (1311, -5000)]

/-- Concrete membership functions for the C3 witness. -/
def wInAsset : ℕ → Bool := fun a => inRanges baseByggRanges a

/-- Base depreciation membership for the C3 witness. -/
def wDep : ℕ → Bool := fun a => baseAccDep.contains a

/-- Base impairment membership for the C3 witness. -/
def wImp : ℕ → Bool := fun a => baseAccImp.contains a

/-- Koncern share membership for the C3 witness. -/
def wAndel : ℕ → Bool := fun a => a == 1310 || a == 1311

/-- Koncern contribution membership for the C3 witness. -/
def wAat : ℕ → Bool := fun _ => false

/-- Koncern impairment membership for the C3 witness. -/
def wImpK : ℕ → Bool := fun a => a == 1318

/-- Witness for C3 at concrete vouchers: the no-signal transfer voucher with
an empty header books reclassification and full purchase with zero disposal
and a result-share subtraction, and the same voucher under the header
"avyttring" books the credit to the disposal total instead. -/
theorem claim_c3_witness :
    ((byggDelta wInAsset wDep wImp wtxsB).omklass =
        sumD wInAsset wtxsB - sumK wInAsset wtxsB ∧
      (byggDelta wInAsset wDep wImp wtxsB).inkop = sumD wInAsset wtxsB ∧
      (byggDelta wInAsset wDep wImp wtxsB).fsg = 0) ∧
    ((koncernDelta wAndel wAat wImpK "" wtxsK).omklass =
        (sumD wAndel wtxsK + sumD wAat wtxsK) -
          (sumK wAndel wtxsK + sumK wAat wtxsK) ∧
      (koncernDelta wAndel wAat wImpK "" wtxsK).inkop +
        (koncernDelta wAndel wAat wImpK "" wtxsK).fusion = sumD wAndel wtxsK ∧
      (koncernDelta wAndel wAat wImpK "" wtxsK).aat_lamnad = sumD wAat wtxsK ∧
      (koncernDelta wAndel wAat wImpK "" wtxsK).aat_aterbetald =
        sumK wAat wtxsK ∧
      (koncernDelta wAndel wAat wImpK "" wtxsK).fsg = 0 ∧
      (koncernDelta wAndel wAat wImpK "" wtxsK).resultatandel =
        -(sumK wAndel wtxsK)) ∧
    ((koncernDelta wAndel wAat wImpK "avyttring" wtxsK).fsg =
        sumK wAndel wtxsK ∧
      (koncernDelta wAndel wAat wImpK "avyttring" wtxsK).resultatandel = 0) := by
  refine ⟨claim_c3.1 wInAsset wDep wImp wtxsB
    (by with_unfolding_all rfl) (by with_unfolding_all rfl)
    (by with_unfolding_all rfl) (by with_unfolding_all rfl)
    (by with_unfolding_all rfl) (by with_unfolding_all rfl)
    (by with_unfolding_all rfl) (by with_unfolding_all rfl)
    (by with_unfolding_all rfl) (by with_unfolding_all rfl)
    (by with_unfolding_all decide) (by with_unfolding_all decide), ?_, ?_⟩
  · obtain ⟨h1, h2, h3, h4, -, h6⟩ := claim_c3.2 wAndel wAat wImpK "" wtxsK
      (by with_unfolding_all rfl) (by with_unfolding_all rfl)
      (by with_unfolding_all rfl) (by with_unfolding_all rfl)
      (by with_unfolding_all rfl)
      (by with_unfolding_all decide) (by with_unfolding_all decide)
    obtain ⟨hf, hr⟩ := h6.2 (Or.inl (by with_unfolding_all decide))
    exact ⟨h1, h2, h3, h4, hf, hr⟩
  · obtain ⟨-, -, -, -, -, h6⟩ := claim_c3.2 wAndel wAat wImpK "avyttring" wtxsK
      (by with_unfolding_all rfl) (by with_unfolding_all rfl)
      (by with_unfolding_all rfl) (by with_unfolding_all rfl)
      (by with_unfolding_all rfl)
      (by with_unfolding_all decide) (by with_unfolding_all decide)
    exact h6.1 ⟨by with_unfolding_all decide, by with_unfolding_all decide⟩

/-- Sum of the two mutually exclusive text branches of a purchase/fusion
split. -/
theorem ite_fusion_sum (r : ℚ) (hr : 0 ≤ r) (c : Prop) [Decidable c] :
    ((if 0 < r ∧ ¬ c then r else 0) + if 0 < r ∧ c then r else 0) = r := by
  by_cases hc : c
  · by_cases h : 0 < r
    · rw [if_neg (by tauto), if_pos ⟨h, hc⟩, zero_add]
    · rw [if_neg (by tauto), if_neg (by tauto)]
      linarith
  · by_cases h : 0 < r
    · rw [if_pos ⟨h, hc⟩, if_neg (by tauto), add_zero]
    · rw [if_neg (by tauto), if_neg (by tauto)]
      linarith

/-- A guarded positive amount is the amount itself when it is nonnegative. -/
theorem ite_pos_id (r : ℚ) (hr : 0 ≤ r) : (if 0 < r then r else 0) = r := by
  by_cases h : 0 < r
  · rw [if_pos h]
  · rw [if_neg h]
    linarith

/-- The two-stage `min` consumption used by the voucher loop splits the
consumed amount exactly. -/
theorem consume_split {x y P : ℚ} (hy : 0 ≤ y) (hP : P ≤ x + y) :
    min x P + min y (P - min x P) = P := by
  rcases le_total P x with h | h
  · rw [min_eq_right h, sub_self, min_eq_right hy]
    ring
  · rw [min_eq_left h, min_eq_right (by linarith)]
    ring

/-- Claim C4: the result-share consumption step.  For the koncern and
intresseftg voucher classifiers: the computed `res_plus`/`res_minus` equal the
specified minima; the purchase-side buckets receive exactly the debit
remainder after consumption; the credit side processed by the
sale/payout/repayment step is exactly the credit remainder; and whenever the
reclassification step books anything the consumption was zero, so it too sees
exactly the remainders. -/
theorem claim_c4 :
    (∀ (andel aat imp : ℕ → Bool) (text : String) (txs : List (ℕ × ℚ)),
      koncernResPlus andel aat txs =
        min (sumD andel txs + sumD aat txs) (sumK resShareK txs) ∧
      koncernResMinus andel aat txs =
        min (sumK andel txs + sumK aat txs) (sumD resShareK txs) ∧
      (koncernDelta andel aat imp text txs).inkop +
        (koncernDelta andel aat imp text txs).fusion +
        (koncernDelta andel aat imp text txs).aat_lamnad =
        (sumD andel txs + sumD aat txs) - koncernResPlus andel aat txs ∧
      (koncernDelta andel aat imp text txs).fsg +
        (koncernDelta andel aat imp text txs).aat_aterbetald -
        ((koncernDelta andel aat imp text txs).resultatandel -
          (koncernResPlus andel aat txs - koncernResMinus andel aat txs)) =
        (sumK andel txs + sumK aat txs) - koncernResMinus andel aat txs ∧
      ((koncernDelta andel aat imp text txs).omklass = 0 ∨
        (koncernResPlus andel aat txs = 0 ∧ koncernResMinus andel aat txs = 0))) ∧
    (∀ (asset contribM impM : ℕ → Bool) (text : String) (txs : List (ℕ × ℚ)),
      intresseResPlus asset txs =
        min (sumD asset txs) (sumK (fun a => a == 8240) txs) ∧
      intresseResMinus asset txs =
        min (sumK asset txs) (sumD (fun a => a == 8240) txs) ∧
      (intresseDelta asset contribM impM text txs).inkop +
        (intresseDelta asset contribM impM text txs).fusion =
        sumD asset txs - intresseResPlus asset txs ∧
      (intresseDelta asset contribM impM text txs).fsg =
        -((sumK asset txs - intresseResMinus asset txs) + sumK contribM txs) ∧
      ((intresseDelta asset contribM impM text txs).omklass = 0 ∨
        (intresseResPlus asset txs = 0 ∧ intresseResMinus asset txs = 0))) := by
  constructor
  · intro andel aat imp text txs
    have hDa := sumD_nonneg andel txs
    have hDt := sumD_nonneg aat txs
    have hKa := sumK_nonneg andel txs
    have hKt := sumK_nonneg aat txs
    have hRK := sumK_nonneg resShareK txs
    have hRD := sumD_nonneg resShareK txs
    have hADe : (0 : ℚ) ≤ sumD andel txs + sumD aat txs := by linarith
    have hAKe : (0 : ℚ) ≤ sumK andel txs + sumK aat txs := by linarith
    have hP0 : (0 : ℚ) ≤ koncernResPlus andel aat txs := by
      rw [koncernResPlus]
      exact resPlusOf_nonneg hADe hRK
    have hPle : koncernResPlus andel aat txs ≤ sumD andel txs + sumD aat txs := by
      rw [koncernResPlus]
      exact resPlusOf_le_left hADe
    have hM0 : (0 : ℚ) ≤ koncernResMinus andel aat txs := by
      rw [koncernResMinus]
      exact resPlusOf_nonneg hAKe hRD
    have hMle : koncernResMinus andel aat txs ≤ sumK andel txs + sumK aat txs := by
      rw [koncernResMinus]
      exact resPlusOf_le_left hAKe
    refine ⟨resPlusOf_eq_min (by linarith) hRK, resPlusOf_eq_min (by linarith) hRD,
      ?_, ?_, ?_⟩
    · have key := @consume_split (sumD andel txs) (sumD aat txs)
        (koncernResPlus andel aat txs) hDt hPle
      simp only [koncernDelta]
      have e1 : max 0 (sumD andel txs -
          min (sumD andel txs) (koncernResPlus andel aat txs)) =
          sumD andel txs - min (sumD andel txs) (koncernResPlus andel aat txs) :=
        max_eq_right (by
          linarith [min_le_left (sumD andel txs) (koncernResPlus andel aat txs)])
      have e2 : max 0 (sumD aat txs - min (sumD aat txs)
          (koncernResPlus andel aat txs -
            min (sumD andel txs) (koncernResPlus andel aat txs))) =
          sumD aat txs - min (sumD aat txs) (koncernResPlus andel aat txs -
            min (sumD andel txs) (koncernResPlus andel aat txs)) :=
        max_eq_right (by
          linarith [min_le_left (sumD aat txs) (koncernResPlus andel aat txs -
            min (sumD andel txs) (koncernResPlus andel aat txs))])
      rw [e1, e2, ite_fusion_sum _ (by
          linarith [min_le_left (sumD andel txs) (koncernResPlus andel aat txs)]) _,
        ite_pos_id _ (by
          linarith [min_le_left (sumD aat txs) (koncernResPlus andel aat txs -
            min (sumD andel txs) (koncernResPlus andel aat txs))])]
      linarith [key]
    · have key := @consume_split (sumK andel txs) (sumK aat txs)
        (koncernResMinus andel aat txs) hKt hMle
      have hrem : koncernRemAndelK andel aat txs = sumK andel txs -
          min (sumK andel txs) (koncernResMinus andel aat txs) := by
        rw [koncernRemAndelK]
        exact max_eq_right (by
          linarith [min_le_left (sumK andel txs) (koncernResMinus andel aat txs)])
      simp only [koncernDelta]
      have e2 : max 0 (sumK aat txs - min (sumK aat txs)
          (koncernResMinus andel aat txs -
            min (sumK andel txs) (koncernResMinus andel aat txs))) =
          sumK aat txs - min (sumK aat txs) (koncernResMinus andel aat txs -
            min (sumK andel txs) (koncernResMinus andel aat txs)) :=
        max_eq_right (by
          linarith [min_le_left (sumK aat txs) (koncernResMinus andel aat txs -
            min (sumK andel txs) (koncernResMinus andel aat txs))])
      rw [e2]
      split_ifs <;>
        linarith [key, hrem,
          min_le_left (sumK andel txs) (koncernResMinus andel aat txs),
          min_le_left (sumK aat txs) (koncernResMinus andel aat txs -
            min (sumK andel txs) (koncernResMinus andel aat txs))]
    · by_cases hsig : 0 < sumK resShareK txs ∨ 0 < sumD resShareK txs
      · left
        simp only [koncernDelta]
        rw [if_neg]
        rintro ⟨-, -, hno⟩
        exact hno (by tauto)
      · right
        push_neg at hsig
        have h1 : sumK resShareK txs = 0 := le_antisymm hsig.1 hRK
        have h2 : sumD resShareK txs = 0 := le_antisymm hsig.2 hRD
        constructor
        · rw [koncernResPlus, h1, resPlusOf]
          norm_num
        · rw [koncernResMinus, h2, resPlusOf]
          norm_num
  · intro asset contribM impM text txs
    have hDa := sumD_nonneg asset txs
    have hKa := sumK_nonneg asset txs
    have hCK := sumK_nonneg contribM txs
    have hRK := sumK_nonneg (fun a => a == 8240) txs
    have hRD := sumD_nonneg (fun a => a == 8240) txs
    have hP0 : (0 : ℚ) ≤ intresseResPlus asset txs := by
      rw [intresseResPlus]
      exact resPlusOf_nonneg hDa hRK
    have hPle : intresseResPlus asset txs ≤ sumD asset txs := by
      rw [intresseResPlus]
      exact resPlusOf_le_left hDa
    have hM0 : (0 : ℚ) ≤ intresseResMinus asset txs := by
      rw [intresseResMinus]
      exact resPlusOf_nonneg hKa hRD
    have hMle : intresseResMinus asset txs ≤ sumK asset txs := by
      rw [intresseResMinus]
      exact resPlusOf_le_left hKa
    refine ⟨resPlusOf_eq_min hDa hRK, resPlusOf_eq_min hKa hRD, ?_, ?_, ?_⟩
    · simp only [intresseDelta]
      rw [ite_fusion_sum _ (le_max_left 0 _) _,
        max_eq_right (by linarith)]
    · simp only [intresseDelta]
      by_cases h : 0 < sumK asset txs - intresseResMinus asset txs +
          sumK contribM txs
      · rw [if_pos h]
      · rw [if_neg h]
        have : sumK asset txs - intresseResMinus asset txs + sumK contribM txs = 0 := by
          linarith
        rw [this, neg_zero]
    · by_cases hsig : 0 < sumK (fun a => a == 8240) txs ∨
          0 < sumD (fun a => a == 8240) txs
      · left
        simp only [intresseDelta]
        rw [if_neg]
        rintro ⟨-, -, hno⟩
        exact hno (by tauto)
      · right
        push_neg at hsig
        have h1 : sumK (fun a => a == 8240) txs = 0 := le_antisymm hsig.1 hRK
        have h2 : sumD (fun a => a == 8240) txs = 0 := le_antisymm hsig.2 hRD
        constructor
        · rw [intresseResPlus, h1, resPlusOf]
          norm_num
        · rw [intresseResMinus, h2, resPlusOf]
          norm_num

/-- Claim C6: disposal classification and disposal-tied impairment reversal.
For the bygg classifier: a voucher with an asset-side credit together with a
debit to a depreciation sub-account, a disposal profit/loss posting, or a
debit to the revaluation reserve books the whole credit as a disposal, books
the voucher's depreciation and impairment sub-account debits to the
disposal-tied reversal buckets, and books nothing to the standalone reversal
bucket.  For the koncern classifier: a voucher with a remaining share-side
credit and a disposal profit/loss posting books the remaining credit as a
disposal and its impairment-sub-account debit to the disposal-tied reversal
bucket, with both standalone reversal buckets empty. -/
theorem claim_c6 :
    (∀ (inAsset dep imp : ℕ → Bool) (txs : List (ℕ × ℚ)),
      0 < sumK inAsset txs →
      (0 < sumD dep txs ∨ (txs.any fun t => t.1 == 3972 || t.1 == 7972) = true ∨
        0 < sumD (fun a => a == 2085) txs) →
      (byggDelta inAsset dep imp txs).fsg = sumK inAsset txs ∧
      (byggDelta inAsset dep imp txs).aterfor_avskr_fsg = sumD dep txs ∧
      (byggDelta inAsset dep imp txs).aterfor_nedskr_fsg = sumD imp txs ∧
      (byggDelta inAsset dep imp txs).aterfor_nedskr = 0) ∧
    (∀ (andel aat imp : ℕ → Bool) (text : String) (txs : List (ℕ × ℚ)),
      0 < koncernRemAndelK andel aat txs →
      (txs.any fun t => salePnl t.1) = true →
      (koncernDelta andel aat imp text txs).fsg =
        koncernRemAndelK andel aat txs ∧
      (koncernDelta andel aat imp text txs).aterfor_nedskr_fsg =
        sumD imp txs ∧
      (koncernDelta andel aat imp text txs).aterfor_nedskr = 0 ∧
      (koncernDelta andel aat imp text txs).aterfor_nedskr_fusion = 0) := by
  constructor
  · intro inAsset dep imp txs hK htrig
    refine ⟨?_, ?_, ?_, ?_⟩
    · simp only [byggDelta]
      rw [if_pos ⟨hK, htrig⟩]
    · simp only [byggDelta]
      rw [if_pos ⟨hK, htrig⟩]
    · simp only [byggDelta]
      rw [if_pos ⟨hK, htrig⟩]
    · simp only [byggDelta]
      rw [if_neg]
      rintro ⟨-, -, hz⟩
      rw [hz] at hK
      exact lt_irrefl 0 hK
  · intro andel aat imp text txs hrem hsale
    refine ⟨?_, ?_, ?_, ?_⟩
    · simp only [koncernDelta]
      rw [if_pos hrem, if_pos hsale]
    · simp only [koncernDelta]
      by_cases hI : 0 < sumD imp txs
      · have hc : (0 < koncernRemAndelK andel aat txs ∧
            (txs.any fun t => salePnl t.1) = true) ∧ 0 < sumD imp txs :=
          ⟨⟨hrem, hsale⟩, hI⟩
        rw [if_pos hc]
      · have hc : ¬ ((0 < koncernRemAndelK andel aat txs ∧
            (txs.any fun t => salePnl t.1) = true) ∧ 0 < sumD imp txs) :=
          fun h => hI h.2
        rw [if_neg hc]
        linarith [sumD_nonneg imp txs]
    · simp only [koncernDelta]
      by_cases hI : 0 < sumD imp txs
      · have hc : (0 < koncernRemAndelK andel aat txs ∧
            (txs.any fun t => salePnl t.1) = true) ∧ 0 < sumD imp txs :=
          ⟨⟨hrem, hsale⟩, hI⟩
        rw [if_pos hc]
        have hz : ¬ ((0 : ℚ) < 0 ∧ ¬ (strIn "fusion" text = true)) :=
          fun h => lt_irrefl 0 h.1
        rw [if_neg hz]
      · have hc1 : ¬ ((0 < koncernRemAndelK andel aat txs ∧
            (txs.any fun t => salePnl t.1) = true) ∧ 0 < sumD imp txs) :=
          fun h => hI h.2
        rw [if_neg hc1]
        have hc2 : ¬ (0 < sumD imp txs ∧ ¬ (strIn "fusion" text = true)) :=
          fun h => hI h.1
        rw [if_neg hc2]
    · simp only [koncernDelta]
      by_cases hI : 0 < sumD imp txs
      · have hc : (0 < koncernRemAndelK andel aat txs ∧
            (txs.any fun t => salePnl t.1) = true) ∧ 0 < sumD imp txs :=
          ⟨⟨hrem, hsale⟩, hI⟩
        rw [if_pos hc]
        have hz : ¬ ((0 : ℚ) < 0 ∧ strIn "fusion" text = true) :=
          fun h => lt_irrefl 0 h.1
        rw [if_neg hz]
      · have hc1 : ¬ ((0 < koncernRemAndelK andel aat txs ∧
            (txs.any fun t => salePnl t.1) = true) ∧ 0 < sumD imp txs) :=
          fun h => hI h.2
        rw [if_neg hc1]
        have hc2 : ¬ (0 < sumD imp txs ∧ strIn "fusion" text = true) :=
          fun h => hI h.1
        rw [if_neg hc2]

/-- Disposal voucher postings for the C6 witness (building accounts): sell the
asset, reverse accumulated depreciation. -/
def w6txsB : List (ℕ × ℚ) := [(1110, -100000), (1119, 100000)]

/-- Disposal voucher postings for the C6 witness (koncern accounts): sell the
shares against a sale P&L account, reversing an impairment. -/
def w6txsK : List (ℕ × ℚ) := [(1310, -50000), (8220, 47000), (1318, 3000)]

/-- Witness for C6 at concrete disposal vouchers. -/
theorem claim_c6_witness :
    ((byggDelta wInAsset wDep wImp w6txsB).fsg = sumK wInAsset w6txsB ∧
      (byggDelta wInAsset wDep wImp w6txsB).aterfor_avskr_fsg =
        sumD wDep w6txsB ∧
      (byggDelta wInAsset wDep wImp w6txsB).aterfor_nedskr_fsg =
        sumD wImp w6txsB ∧
      (byggDelta wInAsset wDep wImp w6txsB).aterfor_nedskr = 0) ∧
    ((koncernDelta wAndel wAat wImpK "" w6txsK).fsg =
        koncernRemAndelK wAndel wAat w6txsK ∧
      (koncernDelta wAndel wAat wImpK "" w6txsK).aterfor_nedskr_fsg =
        sumD wImpK w6txsK ∧
      (koncernDelta wAndel wAat wImpK "" w6txsK).aterfor_nedskr = 0 ∧
      (koncernDelta wAndel wAat wImpK "" w6txsK).aterfor_nedskr_fusion = 0) :=
  ⟨claim_c6.1 wInAsset wDep wImp w6txsB (by with_unfolding_all decide)
    (Or.inl (by with_unfolding_all decide)),
   claim_c6.2 wAndel wAat wImpK "" w6txsK (by with_unfolding_all decide)
    (by with_unfolding_all decide)⟩

end Raket
